import Mathlib

set_option maxRecDepth 10000

/-!
Verification development for the Google Chat MCP server
(`src/google_chat_mcp`): a shallow embedding, in Lean, of the tool
dispatch layer (server.py), the five tool categories
(messages.py, spaces.py, members.py, search.py, webhooks.py) and their
shared base helpers (base.py), together with theorems about the
embedded code.

Modelling conventions:
* Python JSON-ish values are the inductive `Json` (numbers restricted to
  integers: no float appears in any behaviour under verification).
* A Python exception is an `Exc` value; `raise` is the `error`
  constructor of the `PyM` monad below.
* Every Google Chat API invocation made through the `googleapiclient`
  service object is a field of `Service` (the environment: the remote
  system's answer, or the exception it raises), and is recorded in a
  `Call` trace so that theorems can speak about which network calls a
  tool execution performs.
* `PyM α := Except Exc α × List Call` is a writer/except monad: a
  computation is its outcome together with the API calls it made.
  Python `try/except` blocks are explicit matches on the outcome.
* The authentication collaborator (auth/google_auth.py) is external:
  the outcome of `ensure_authenticated()` / `_get_service()` at one
  invocation is modelled by the `AuthState` environment, as §6 of the
  spec treats it.
-/

/-- Python JSON-like values (dicts keep insertion order, as Python dicts do).
Numbers are modelled as integers; none of the verified code paths
manipulates float payloads. -/
inductive Json where
  | null
  | bool (b : Bool)
  | num (n : Int)
  | str (s : String)
  | arr (xs : List Json)
  | obj (kvs : List (String × Json))

mutual
/-- Python `==` on JSON-ish values (structural equality; the Python
`1 == True` numeric/bool quirk is not modelled, no verified path mixes
them). -/
def Json.beq : Json → Json → Bool
  | .null, .null => true
  | .bool a, .bool b => a == b
  | .num a, .num b => a == b
  | .str a, .str b => a == b
  | .arr xs, .arr ys => Json.beqList xs ys
  | .obj xs, .obj ys => Json.beqKV xs ys
  | _, _ => false

def Json.beqList : List Json → List Json → Bool
  | [], [] => true
  | a :: as, b :: bs => Json.beq a b && Json.beqList as bs
  | _, _ => false

def Json.beqKV : List (String × Json) → List (String × Json) → Bool
  | [], [] => true
  | (k1, v1) :: as, (k2, v2) :: bs => k1 == k2 && Json.beq v1 v2 && Json.beqKV as bs
  | _, _ => false
end

instance : BEq Json := ⟨Json.beq⟩

/-- Python truthiness of a JSON-ish value (`if space:` etc.). -/
def Json.truthy : Json → Bool
  | .null => false
  | .bool b => b
  | .num n => n != 0
  | .str s => !s.data.isEmpty
  | .arr xs => !xs.isEmpty
  | .obj kvs => !kvs.isEmpty

/-- The type name Python would report for the value (for error messages). -/
def Json.typeName : Json → String
  | .null => "NoneType"
  | .bool _ => "bool"
  | .num _ => "int"
  | .str _ => "str"
  | .arr _ => "list"
  | .obj _ => "dict"

/-- First-match lookup in a key/value list (Python dict access; keys are
unique in every dict the embedded code builds). -/
def kvLookup : List (String × Json) → String → Option Json
  | [], _ => none
  | (k, v) :: rest, key => if k == key then some v else kvLookup rest key

/-- Python dict assignment `d[k] = v` on a dict value: replace the value
in place if the key exists, else append the new binding at the end
(insertion order, as Python does). -/
def kvSet : List (String × Json) → String → Json → List (String × Json)
  | [], key, v => [(key, v)]
  | (k, w) :: rest, key, v =>
    if k == key then (k, v) :: rest else (k, w) :: kvSet rest key v

/-- Decimal digits of a natural number, most significant first (the
first argument is structural fuel; `n` itself always suffices). -/
def natDigitsGo : Nat → Nat → List Char → List Char
  | 0, _, acc => acc
  | fuel + 1, n, acc =>
    if n == 0 then acc else natDigitsGo fuel (n / 10) (Char.ofNat (48 + n % 10) :: acc)

def natDigits (n : Nat) : List Char :=
  if n == 0 then ['0'] else natDigitsGo n n []

/-- Decimal rendering of an integer (Python `str` of an int). -/
def intRepr (n : Int) : String :=
  if n < 0 then ⟨'-' :: natDigits n.natAbs⟩ else ⟨natDigits n.natAbs⟩

mutual
/-- Python `str()` of a JSON-ish value, as used by f-strings.  Container
reprs quote strings with `'`; Python's switch to `"` for strings that
contain `'` is not modelled (no verified input needs it). -/
def Json.pyStr : Json → String
  | .null => "None"
  | .bool b => if b then "True" else "False"
  | .num n => intRepr n
  | .str s => s
  | .arr xs => "[" ++ Json.pyStrList xs ++ "]"
  | .obj kvs => "\x7b" ++ Json.pyStrKV kvs ++ "\x7d"

def Json.pyStrInner : Json → String
  | .null => "None"
  | .bool b => if b then "True" else "False"
  | .num n => intRepr n
  | .str s => "\x27" ++ s ++ "\x27"
  | .arr xs => "[" ++ Json.pyStrList xs ++ "]"
  | .obj kvs => "\x7b" ++ Json.pyStrKV kvs ++ "\x7d"

def Json.pyStrList : List Json → String
  | [] => ""
  | [x] => Json.pyStrInner x
  | x :: rest => Json.pyStrInner x ++ ", " ++ Json.pyStrList rest

def Json.pyStrKV : List (String × Json) → String
  | [] => ""
  | [(k, v)] => "\x27" ++ k ++ "\x27: " ++ Json.pyStrInner v
  | (k, v) :: rest => "\x27" ++ k ++ "\x27: " ++ Json.pyStrInner v ++ ", " ++ Json.pyStrKV rest
end

/-- Python exceptions that the embedded code can raise or observe.
`http` is `googleapiclient.errors.HttpError` carrying `resp.status`. -/
inductive Exc where
  | http (status : Int) (msg : String)
  | valueError (msg : String)
  | keyError (key : String)
  | typeError (msg : String)
  | attributeError (msg : String)
  | runtimeError (msg : String)
  | generic (typeName : String) (msg : String)

/-- Python `str(e)` of an exception (KeyError renders the quoted key). -/
def Exc.msgStr : Exc → String
  | .http _ m => m
  | .valueError m => m
  | .keyError k => "\x27" ++ k ++ "\x27"
  | .typeError m => m
  | .attributeError m => m
  | .runtimeError m => m
  | .generic _ m => m

/-- Python `type(e).__name__`. -/
def Exc.typeName : Exc → String
  | .http _ _ => "HttpError"
  | .valueError _ => "ValueError"
  | .keyError _ => "KeyError"
  | .typeError _ => "TypeError"
  | .attributeError _ => "AttributeError"
  | .runtimeError _ => "RuntimeError"
  | .generic n _ => n

/-- Is this exception caught by `except HttpError`? -/
def Exc.isHttp : Exc → Bool
  | .http _ _ => true
  | _ => false

/-- `e.resp.status` when the exception carries an HTTP status
(`hasattr(e, 'resp') and hasattr(e.resp, 'status')` in base.py). -/
def Exc.status? : Exc → Option Int
  | .http s _ => some s
  | _ => none

/-- One recorded Google Chat API call (the network side effects of a tool
execution); constructors mirror the `Service` fields below. -/
inductive Call where
  | messagesCreate (parent body : Json)
  | messagesList (parent pageSize orderBy : Json) (filter? : Option Json)
  | messagesGet (name : Json)
  | messagesPatch (name updateMask body : Json)
  | messagesDelete (name : Json)
  | spacesList (pageSize? filter? : Option Json)
  | spacesGet (name : Json)
  | spacesCreate (body : Json)
  | spacesPatch (name updateMask body : Json)
  | spacesDelete (name : Json)
  | membersList (parent : Json) (pageSize? showGroups? showInvited? : Option Json)
  | membersGet (name : Json)
  | membersCreate (parent body : Json)
  | membersPatch (name updateMask body : Json)
  | membersDelete (name : Json)
  | httpPost (url body : Json)

/-- The remote Google Chat system as observed through `googleapiclient`:
one field per API operation the embedded code invokes, giving the
response (or the exception the call raises).  `httpPost` is the aiohttp
webhook POST: (HTTP status, parsed JSON body, raw text body). -/
structure Service where
  messagesCreate : Json → Json → Except Exc Json
  messagesList : Json → Json → Json → Option Json → Except Exc Json
  messagesGet : Json → Except Exc Json
  messagesPatch : Json → Json → Json → Except Exc Json
  messagesDelete : Json → Except Exc Json
  spacesList : Option Json → Option Json → Except Exc Json
  spacesGet : Json → Except Exc Json
  spacesCreate : Json → Except Exc Json
  spacesPatch : Json → Json → Json → Except Exc Json
  spacesDelete : Json → Except Exc Json
  membersList : Json → Option Json → Option Json → Option Json → Except Exc Json
  membersGet : Json → Except Exc Json
  membersCreate : Json → Json → Except Exc Json
  membersPatch : Json → Json → Json → Except Exc Json
  membersDelete : Json → Except Exc Json
  httpPost : Json → Json → Except Exc (Int × Json × String)

/-- The Python computation monad: outcome (value or uncaught exception)
together with the trace of API calls made, in order. -/
def PyM (α : Type) : Type := Except Exc α × List Call

instance : Monad PyM where
  pure a := (Except.ok a, [])
  bind x f :=
    match x with
    | (Except.ok a, w) =>
      let y := f a
      (y.1, w ++ y.2)
    | (Except.error e, w) => (Except.error e, w)

/-- `raise e`. -/
def PyM.throw (e : Exc) : PyM α := (Except.error e, [])

/-- Outcome of a computation. -/
def PyM.res (x : PyM α) : Except Exc α := x.1

/-- API calls made by a computation. -/
def PyM.calls (x : PyM α) : List Call := x.2

/-- `try: body except HttpError: handler` — other exceptions propagate. -/
def PyM.catchHttp (body : PyM α) (handler : PyM α) : PyM α :=
  match body with
  | (Except.ok a, w) => (Except.ok a, w)
  | (Except.error e, w) =>
    if e.isHttp then
      let y := handler
      (y.1, w ++ y.2)
    else (Except.error e, w)

/-- Lift the outcome of an external collaborator call into `PyM`. -/
def PyM.ofExcept (x : Except Exc α) : PyM α := (x, [])

/-! ## Python operations used by the tool bodies -/

/-- The argument bag of an invocation (`arguments: Dict[str, Any]`). -/
def Args : Type := List (String × Json)

/-- `args.get(k)` — `None` (here `Option.none`) when absent. -/
def argGet? (args : Args) (k : String) : Option Json := kvLookup args k

/-- `args.get(k, d)`. -/
def argGetD (args : Args) (k : String) (d : Json) : Json := (kvLookup args k).getD d

/-- `args[k]` — raises `KeyError` when absent. -/
def argItem (args : Args) (k : String) : PyM Json :=
  match kvLookup args k with
  | some v => pure v
  | none => PyM.throw (.keyError k)

/-- `"k" in args`. -/
def argHas (args : Args) (k : String) : Bool := (kvLookup args k).isSome

/-- `j.get(k, d)` on a JSON value — `AttributeError` when `j` is not a dict. -/
def Json.getD (j : Json) (k : String) (d : Json) : PyM Json :=
  match j with
  | .obj kvs => pure ((kvLookup kvs k).getD d)
  | _ => PyM.throw (.attributeError
      ("\x27" ++ j.typeName ++ "\x27 object has no attribute \x27get\x27"))

/-- `j.get(k)` on a JSON value (default `None`). -/
def Json.getN (j : Json) (k : String) : PyM Json := j.getD k .null

/-- `j[k]` on a JSON value — `KeyError` when the key is absent,
`TypeError` when `j` is not a dict (Python's message varies by type). -/
def Json.item (j : Json) (k : String) : PyM Json :=
  match j with
  | .obj kvs =>
    match kvLookup kvs k with
    | some v => pure v
    | none => PyM.throw (.keyError k)
  | _ => PyM.throw (.typeError
      ("\x27" ++ j.typeName ++ "\x27 indices must not be str"))

/-- `j[k] = v` — `TypeError` when `j` is not a dict. -/
def Json.setItem (j : Json) (k : String) (v : Json) : PyM Json :=
  match j with
  | .obj kvs => pure (.obj (kvSet kvs k v))
  | _ => PyM.throw (.typeError
      ("\x27" ++ j.typeName ++ "\x27 object does not support item assignment"))

/-- Iterating a JSON value as a list (`for x in xs:`).  Python would also
iterate the characters of a string or the keys of a dict; those exotic
payload shapes are modelled as a `TypeError` — every theorem below is
stated on (or robust to) list-shaped payloads. -/
def Json.asList (j : Json) : PyM (List Json) :=
  match j with
  | .arr xs => pure xs
  | _ => PyM.throw (.typeError
      ("\x27" ++ j.typeName ++ "\x27 object is not iterable (modelled)"))

/-- `len(j)` — `TypeError` for values without a length. -/
def Json.pyLen (j : Json) : PyM Int :=
  match j with
  | .arr xs => pure xs.length
  | .str s => pure s.data.length
  | .obj kvs => pure kvs.length
  | _ => PyM.throw (.typeError
      ("object of type \x27" ++ j.typeName ++ "\x27 has no len()"))

/-- `min(j, b)` for the `pageSize=min(limit, b)` pattern — comparing a
non-number with an int raises `TypeError` in Python. -/
def pyMinNum (j : Json) (b : Int) : PyM Int :=
  match j with
  | .num n => pure (min n b)
  | _ => PyM.throw (.typeError
      ("\x27<\x27 not supported between instances of \x27" ++ j.typeName ++ "\x27 and \x27int\x27"))

/-- Does the character list start with the given pattern? -/
def charsStart : List Char → List Char → Bool
  | _, [] => true
  | [], _ :: _ => false
  | a :: as, b :: bs => a == b && charsStart as bs

/-- Substring containment on character lists (Python `needle in hay`).
The empty needle is contained everywhere, as in Python. -/
def charsContain : List Char → List Char → Bool
  | [], needle => needle.isEmpty
  | h :: t, needle => charsStart (h :: t) needle || charsContain t needle

/-- ASCII lower-casing (Python `str.lower()`; the embedded code only
lower-cases identifiers and query text, for which ASCII suffices). -/
def strLower (s : String) : String := ⟨s.data.map Char.toLower⟩

/-- `j.lower()` — `AttributeError` when `j` is not a string. -/
def Json.pyLower (j : Json) : PyM String :=
  match j with
  | .str s => pure (strLower s)
  | _ => PyM.throw (.attributeError
      ("\x27" ++ j.typeName ++ "\x27 object has no attribute \x27lower\x27"))

/-- `j.startswith(p)` / `"@" in j` style string operations need `j` to be
a string. -/
def Json.asStr (j : Json) : PyM String :=
  match j with
  | .str s => pure s
  | _ => PyM.throw (.typeError
      ("argument of type \x27" ++ j.typeName ++ "\x27 is not a str (modelled)"))

/-- Python `x in container` for the containers the embedded code uses:
element membership for lists, substring for strings, key membership for
dicts. -/
def pyInJson (x : Json) (container : Json) : PyM Bool :=
  match container with
  | .arr l => pure (l.any (Json.beq x))
  | .str s =>
    match x with
    | .str n => pure (charsContain s.data n.data)
    | _ => PyM.throw (.typeError "in <string> requires string as left operand")
  | .obj kvs => pure (kvs.any (fun kv => Json.beq x (.str kv.1)))
  | _ => PyM.throw (.typeError
      ("argument of type \x27" ++ container.typeName ++ "\x27 is not iterable"))

/-- Python slice `l[:limit]`: ordinary truncation for non-negative
limits, drop-from-the-end for negative limits, the whole list for
`None`, `TypeError` otherwise. -/
def pySliceTo (l : List Json) (limit : Json) : PyM (List Json) :=
  match limit with
  | .num n =>
    pure (if 0 ≤ n then l.take n.toNat else l.take (l.length - (-n).toNat))
  | .null => pure l
  | _ => PyM.throw (.typeError "slice indices must be integers or None")

/-! ## Shared base-tool helpers (tools/base.py) -/

/-- `BaseTool._handle_api_error` (base.py): map a caught failure to a
structured error envelope. 403/404/429 get fixed messages with the
status echoed; everything else gets a generic message embedding the
operation name and the failure text plus the exception type name. -/
def handleApiError (e : Exc) (operation : String) : Json :=
  match e.status? with
  | some 403 => .obj [("error", .str "Permission denied. Check your authentication and API permissions."),
                      ("status", .num 403)]
  | some 404 => .obj [("error", .str "Resource not found. Check the space/message ID."),
                      ("status", .num 404)]
  | some 429 => .obj [("error", .str "Rate limit exceeded. Please try again later."),
                      ("status", .num 429)]
  | _ => .obj [("error", .str ("API error during " ++ operation ++ ": " ++ e.msgStr)),
               ("type", .str e.typeName)]

/-- The `ValueError` raised by `BaseTool._validate_space` when no space
can be resolved. -/
def noSpaceExc : Exc := .valueError "No space specified and no default space configured"

/-- `BaseTool._validate_space` (base.py): return the space argument when
truthy, else the configured default space when truthy, else raise. -/
def validateSpace (defaultSpace : Option String) (space : Option Json) : PyM Json :=
  match space with
  | some v =>
    if v.truthy then pure v
    else
      match defaultSpace with
      | some d => if (!d.data.isEmpty) then pure (.str d) else PyM.throw noSpaceExc
      | none => PyM.throw noSpaceExc
  | none =>
    match defaultSpace with
    | some d => if (!d.data.isEmpty) then pure (.str d) else PyM.throw noSpaceExc
    | none => PyM.throw noSpaceExc

/-- Outcome of the authentication collaborator at one invocation:
what `ensure_authenticated()` does (succeeds, or raises) and what
`_get_service()` returns (the service, or the `RuntimeError` raised
before initialization). -/
structure AuthState where
  ensureResult : Except Exc Unit
  serviceResult : Except Exc Service

/-- `self._ensure_authenticated()` as called (unguarded) by the
executors. -/
def AuthState.ensure (a : AuthState) : PyM Unit := PyM.ofExcept a.ensureResult

/-- `self._get_service()` as called inside each tool body's `try`. -/
def AuthState.getService (a : AuthState) : PyM Service := PyM.ofExcept a.serviceResult

/-! ## Traced API call wrappers -/

def Service.callMessagesCreate (svc : Service) (parent body : Json) : PyM Json :=
  (svc.messagesCreate parent body, [.messagesCreate parent body])

def Service.callMessagesList (svc : Service) (parent pageSize orderBy : Json)
    (filter? : Option Json) : PyM Json :=
  (svc.messagesList parent pageSize orderBy filter?, [.messagesList parent pageSize orderBy filter?])

def Service.callMessagesGet (svc : Service) (name : Json) : PyM Json :=
  (svc.messagesGet name, [.messagesGet name])

def Service.callMessagesPatch (svc : Service) (name updateMask body : Json) : PyM Json :=
  (svc.messagesPatch name updateMask body, [.messagesPatch name updateMask body])

def Service.callMessagesDelete (svc : Service) (name : Json) : PyM Json :=
  (svc.messagesDelete name, [.messagesDelete name])

def Service.callSpacesList (svc : Service) (pageSize? filter? : Option Json) : PyM Json :=
  (svc.spacesList pageSize? filter?, [.spacesList pageSize? filter?])

def Service.callSpacesGet (svc : Service) (name : Json) : PyM Json :=
  (svc.spacesGet name, [.spacesGet name])

def Service.callSpacesCreate (svc : Service) (body : Json) : PyM Json :=
  (svc.spacesCreate body, [.spacesCreate body])

def Service.callSpacesPatch (svc : Service) (name updateMask body : Json) : PyM Json :=
  (svc.spacesPatch name updateMask body, [.spacesPatch name updateMask body])

def Service.callSpacesDelete (svc : Service) (name : Json) : PyM Json :=
  (svc.spacesDelete name, [.spacesDelete name])

def Service.callMembersList (svc : Service) (parent : Json)
    (pageSize? showGroups? showInvited? : Option Json) : PyM Json :=
  (svc.membersList parent pageSize? showGroups? showInvited?,
   [.membersList parent pageSize? showGroups? showInvited?])

def Service.callMembersGet (svc : Service) (name : Json) : PyM Json :=
  (svc.membersGet name, [.membersGet name])

def Service.callMembersCreate (svc : Service) (parent body : Json) : PyM Json :=
  (svc.membersCreate parent body, [.membersCreate parent body])

def Service.callMembersPatch (svc : Service) (name updateMask body : Json) : PyM Json :=
  (svc.membersPatch name updateMask body, [.membersPatch name updateMask body])

def Service.callMembersDelete (svc : Service) (name : Json) : PyM Json :=
  (svc.membersDelete name, [.membersDelete name])

def Service.callHttpPost (svc : Service) (url body : Json) : PyM (Int × Json × String) :=
  (svc.httpPost url body, [.httpPost url body])

/-! ## The per-method `try/except` wrappers -/

/-- The `try: ... except HttpError as e: return self._handle_api_error(e, op)
except Exception as e: return {"error": str(e)}` pattern wrapping every
tool body of the messages/spaces/members/search categories. -/
def runMethod (op : String) (body : PyM Json) : Json × List Call :=
  match body with
  | (Except.ok v, w) => (v, w)
  | (Except.error e, w) =>
    (if e.isHttp then handleApiError e op else .obj [("error", .str e.msgStr)], w)

/-- The `try: ... except Exception as e: return {"error": str(e)}`
pattern wrapping every webhook tool body (no `HttpError` clause). -/
def runMethodPlain (body : PyM Json) : Json × List Call :=
  match body with
  | (Except.ok v, w) => (v, w)
  | (Except.error e, w) => (.obj [("error", .str e.msgStr)], w)

/-! ## String utilities shared by the tool bodies -/

/-- Lexicographic `≤` on character lists by code point — Python string
comparison, used by the activity sort key. -/
def lexLe : List Char → List Char → Bool
  | [], _ => true
  | _ :: _, [] => false
  | a :: as, b :: bs =>
    if a.toNat < b.toNat then true
    else if b.toNat < a.toNat then false
    else lexLe as bs

/-- Python `str.split(sep)` for a one-character separator (keeps empty
pieces; `"".split(",") == [""]`). -/
def pySplitOn (cs : List Char) (sep : Char) : List (List Char) :=
  match cs with
  | [] => [[]]
  | c :: rest =>
    if c == sep then [] :: pySplitOn rest sep
    else
      match pySplitOn rest sep with
      | h :: t => (c :: h) :: t
      | [] => [[c]]

/-- Python `s.split(sep, 1)` (at most one split), `none` when the
separator does not occur — the `"=" in part` guard plus the 2-way split. -/
def splitOnce : List Char → Char → Option (List Char × List Char)
  | [], _ => none
  | c :: rest, sep =>
    if c == sep then some ([], rest)
    else
      match splitOnce rest sep with
      | some (a, b) => some (c :: a, b)
      | none => none

/-- Python `str.replace(old, new)` replacing every occurrence,
left to right. -/
def replaceAllGo : Nat → List Char → List Char → List Char → List Char
  | 0, cs, _, _ => cs
  | fuel + 1, cs, old, new =>
    match cs with
    | [] => []
    | c :: rest =>
      if (charsStart (c :: rest) old && !old.isEmpty) = true then
        new ++ replaceAllGo fuel (rest.drop (old.length - 1)) old new
      else c :: replaceAllGo fuel rest old new

def replaceAll (cs old new : List Char) : List Char := replaceAllGo cs.length cs old new

/-- Last-wins string/string association update (Python dict assignment
while folding header parts). -/
def kvSetS : List (String × String) → String → String → List (String × String)
  | [], key, v => [(key, v)]
  | (k, w) :: rest, key, v =>
    if k == key then (k, v) :: rest else (k, w) :: kvSetS rest key v

def kvLookupS : List (String × String) → String → Option String
  | [], _ => none
  | (k, v) :: rest, key => if k == key then some v else kvLookupS rest key

/-- All characters ASCII (`hmac.compare_digest` on `str` requires it). -/
def allAsciiChars (cs : List Char) : Bool := cs.all (fun c => c.toNat < 128)

/-- `hmac.compare_digest(a, b)` on strings: equality test (Python
performs it in constant time — a timing property outside the model),
raising `TypeError` when either side has non-ASCII characters. -/
def compareDigest (a b : String) : PyM Bool :=
  if allAsciiChars a.data && allAsciiChars b.data then pure (a == b)
  else PyM.throw (.typeError "comparing strings with non-ASCII characters is not supported")

/-- Python `int(str)` on the string shapes the embedded code meets:
surrounding whitespace stripped, optional sign, one or more ASCII
digits.  (Underscore digit grouping and non-ASCII digits are not
modelled.) -/
def pyIntParse (s : String) : Option Int :=
  let t := (s.data.dropWhile Char.isWhitespace).reverse.dropWhile Char.isWhitespace |>.reverse
  match t with
  | '+' :: rest => (digitsVal? rest).map (fun n => (n : Int))
  | '-' :: rest => (digitsVal? rest).map (fun n => -(n : Int))
  | rest => (digitsVal? rest).map (fun n => (n : Int))
where
  digitsVal? (cs : List Char) : Option Nat :=
    if cs.isEmpty || !cs.all Char.isDigit then none
    else some (cs.foldl (fun acc c => acc * 10 + (c.toNat - 48)) 0)

/-- Python `int(x)` as applied to the webhook timestamp argument. -/
def pyIntOf (j : Json) : PyM Int :=
  match j with
  | .num n => pure n
  | .str s =>
    match pyIntParse s with
    | some n => pure n
    | none => PyM.throw (.valueError ("invalid literal for int() with base 10: \x27" ++ s ++ "\x27"))
  | _ => PyM.throw (.typeError
      ("int() argument must be a string, a bytes-like object or a real number, not \x27"
        ++ j.typeName ++ "\x27"))

/-- UTF-8 encoding of one code point (Python `str.encode()`). -/
def utf8Bytes (c : Nat) : List Nat :=
  if c < 0x80 then [c]
  else if c < 0x800 then [0xC0 ||| (c >>> 6), 0x80 ||| (c &&& 0x3F)]
  else if c < 0x10000 then
    [0xE0 ||| (c >>> 12), 0x80 ||| ((c >>> 6) &&& 0x3F), 0x80 ||| (c &&& 0x3F)]
  else
    [0xF0 ||| (c >>> 18), 0x80 ||| ((c >>> 12) &&& 0x3F),
     0x80 ||| ((c >>> 6) &&& 0x3F), 0x80 ||| (c &&& 0x3F)]

/-- `s.encode()`: the UTF-8 bytes of a string. -/
def utf8Encode (s : String) : List Nat := (s.data.map (fun ch => utf8Bytes ch.toNat)).flatten

/-! ## SHA-256 / HMAC / base64 (hashlib.sha256, hmac.new, base64.b64encode) -/

def w32 (x : Nat) : Nat := x % 4294967296

def rotr32 (n x : Nat) : Nat := w32 ((x >>> n) ||| (x <<< (32 - n)))

def sha256K : List Nat :=
  [1116352408, 1899447441, 3049323471, 3921009573, 961987163,
   1508970993, 2453635748, 2870763221, 3624381080, 310598401,
   607225278, 1426881987, 1925078388, 2162078206, 2614888103,
   3248222580, 3835390401, 4022224774, 264347078, 604807628,
   770255983, 1249150122, 1555081692, 1996064986, 2554220882,
   2821834349, 2952996808, 3210313671, 3336571891, 3584528711,
   113926993, 338241895, 666307205, 773529912, 1294757372,
   1396182291, 1695183700, 1986661051, 2177026350, 2456956037,
   2730485921, 2820302411, 3259730800, 3345764771, 3516065817,
   3600352804, 4094571909, 275423344, 430227734, 506948616,
   659060556, 883997877, 958139571, 1322822218, 1537002063,
   1747873779, 1955562222, 2024104815, 2227730452, 2361852424,
   2428436474, 2756734187, 3204031479, 3329325298]

def sha256H0 : List Nat :=
  [1779033703, 3144134277, 1013904242, 2773480762,
   1359893119, 2600822924, 528734635, 1541459225]

/-- Big-endian 8-byte rendering of a (bit-)length. -/
def be64 (n : Nat) : List Nat :=
  [(n >>> 56) % 256, (n >>> 48) % 256, (n >>> 40) % 256, (n >>> 32) % 256,
   (n >>> 24) % 256, (n >>> 16) % 256, (n >>> 8) % 256, n % 256]

/-- SHA-256 message padding. -/
def shaPad (msg : List Nat) : List Nat :=
  msg ++ [0x80] ++ List.replicate ((55 - msg.length % 64 + 64) % 64) 0 ++ be64 (msg.length * 8)

/-- Split into 64-byte blocks (fuel-based; the list's length always
suffices as fuel since each step consumes at least one byte). -/
def chunks64Go : Nat → List Nat → List (List Nat)
  | 0, _ => []
  | _, [] => []
  | fuel + 1, x :: xs => (x :: xs.take 63) :: chunks64Go fuel (xs.drop 63)

def chunks64 (l : List Nat) : List (List Nat) := chunks64Go l.length l

/-- Big-endian 32-bit words of a block. -/
def toWordsBE : List Nat → List Nat
  | b0 :: b1 :: b2 :: b3 :: rest => ((b0 <<< 24) + (b1 <<< 16) + (b2 <<< 8) + b3) :: toWordsBE rest
  | _ => []

/-- Extend the 16 block words to the 64-entry message schedule. -/
def extendW (w16 : List Nat) : List Nat :=
  (List.range 48).foldl
    (fun w _ =>
      let n := w.length
      let s0x := w.getD (n - 15) 0
      let s1x := w.getD (n - 2) 0
      let s0 := (rotr32 7 s0x) ^^^ (rotr32 18 s0x) ^^^ (s0x >>> 3)
      let s1 := (rotr32 17 s1x) ^^^ (rotr32 19 s1x) ^^^ (s1x >>> 10)
      w ++ [w32 (s1 + w.getD (n - 7) 0 + s0 + w.getD (n - 16) 0)])
    w16

/-- One SHA-256 compression round. -/
def shaRound (st : List Nat) (kw : Nat × Nat) : List Nat :=
  match st with
  | [a, b, c, d, e, f2, g2, h2] =>
    let s1 := (rotr32 6 e) ^^^ (rotr32 11 e) ^^^ (rotr32 25 e)
    let ch := (e &&& f2) ^^^ ((e ^^^ 0xFFFFFFFF) &&& g2)
    let t1 := w32 (h2 + s1 + ch + kw.1 + kw.2)
    let s0 := (rotr32 2 a) ^^^ (rotr32 13 a) ^^^ (rotr32 22 a)
    let maj := (a &&& b) ^^^ (a &&& c) ^^^ (b &&& c)
    let t2 := w32 (s0 + maj)
    [w32 (t1 + t2), a, b, c, w32 (d + t1), e, f2, g2]
  | other => other

/-- Compress one 64-byte block into the running hash state. -/
def shaCompress (h : List Nat) (block : List Nat) : List Nat :=
  let w := extendW (toWordsBE block)
  let fin := (sha256K.zip w).foldl shaRound h
  (h.zip fin).map (fun p => w32 (p.1 + p.2))

/-- SHA-256 of a byte list. -/
def sha256 (msg : List Nat) : List Nat :=
  (((chunks64 (shaPad msg)).foldl shaCompress sha256H0).map
    (fun wd => [(wd >>> 24) % 256, (wd >>> 16) % 256, (wd >>> 8) % 256, wd % 256])).flatten

/-- HMAC-SHA256 (`hmac.new(key, msg, hashlib.sha256).digest()`). -/
def hmacSha256 (key msg : List Nat) : List Nat :=
  let k0 := if key.length > 64 then sha256 key else key
  let k := k0 ++ List.replicate (64 - k0.length) 0
  sha256 ((k.map (fun b => b ^^^ 0x5c)) ++ sha256 ((k.map (fun b => b ^^^ 0x36)) ++ msg))

def b64Alphabet : List Char :=
  "ABCDEFGHIJKLMNOPQRSTUVWXYZabcdefghijklmnopqrstuvwxyz0123456789+/".data

def b64Char (n : Nat) : Char := b64Alphabet.getD n 'A'

/-- `base64.b64encode(...).decode()` of a byte list. -/
def b64Encode : List Nat → String
  | b0 :: b1 :: b2 :: rest =>
    ⟨[b64Char (b0 >>> 2), b64Char (((b0 &&& 3) <<< 4) ||| (b1 >>> 4)),
      b64Char (((b1 &&& 15) <<< 2) ||| (b2 >>> 6)), b64Char (b2 &&& 63)]⟩ ++ b64Encode rest
  | [b0, b1] =>
    ⟨[b64Char (b0 >>> 2), b64Char (((b0 &&& 3) <<< 4) ||| (b1 >>> 4)),
      b64Char ((b1 &&& 15) <<< 2), '=']⟩
  | [b0] => ⟨[b64Char (b0 >>> 2), b64Char ((b0 &&& 3) <<< 4), '=', '=']⟩
  | [] => ""

/-! ## Tool catalogs (the five categories' `get_tools` / `get_tool_names`)

`ToolSpec` carries the `name` and `description` of each declared
`mcp.types.Tool`.  The JSON-Schema `inputSchema` payloads are not part
of any dispatch behaviour under verification (the code never reads them
back) and are elided from the embedding. -/
structure ToolSpec where
  name : String
  description : String

namespace MessageTools

/-- `MessageTools.get_tools` (tools/messages.py). -/
def get_tools : List ToolSpec :=
  [⟨"send_message", "Send a message to a Google Chat space"⟩,
   ⟨"list_messages", "List messages in a Google Chat space"⟩,
   ⟨"get_message", "Get a specific message by ID"⟩,
   ⟨"update_message", "Update an existing message"⟩,
   ⟨"delete_message", "Delete a message"⟩]

/-- `MessageTools.get_tool_names` (tools/messages.py). -/
def get_tool_names : List String :=
  ["send_message", "list_messages", "get_message", "update_message", "delete_message"]

end MessageTools

namespace SpaceTools

/-- `SpaceTools.get_tools` (tools/spaces.py). -/
def get_tools : List ToolSpec :=
  [⟨"list_spaces", "List Google Chat spaces the bot has access to"⟩,
   ⟨"get_space", "Get details about a specific Google Chat space"⟩,
   ⟨"create_space", "Create a new Google Chat space (group chat)"⟩,
   ⟨"update_space", "Update an existing Google Chat space"⟩,
   ⟨"delete_space", "Delete a Google Chat space"⟩]

/-- `SpaceTools.get_tool_names` (tools/spaces.py). -/
def get_tool_names : List String :=
  ["list_spaces", "get_space", "create_space", "update_space", "delete_space"]

end SpaceTools

namespace MemberTools

/-- `MemberTools.get_tools` (tools/members.py). -/
def get_tools : List ToolSpec :=
  [⟨"list_members", "List members in a Google Chat space"⟩,
   ⟨"get_member", "Get details about a specific member in a space"⟩,
   ⟨"create_membership", "Add a member to a Google Chat space"⟩,
   ⟨"update_membership", "Update a member\x27s role in a space"⟩,
   ⟨"delete_membership", "Remove a member from a Google Chat space"⟩,
   ⟨"find_direct_message", "Find or create a direct message space with a user"⟩]

/-- `MemberTools.get_tool_names` (tools/members.py). -/
def get_tool_names : List String :=
  ["list_members", "get_member", "create_membership", "update_membership",
   "delete_membership", "find_direct_message"]

end MemberTools

namespace SearchTools

/-- `SearchTools.get_tools` (tools/search.py). -/
def get_tools : List ToolSpec :=
  [⟨"search_messages", "Search for messages across Google Chat spaces"⟩,
   ⟨"search_spaces", "Search for Google Chat spaces by name or description"⟩,
   ⟨"search_members", "Search for members across spaces or within a specific space"⟩,
   ⟨"get_recent_activity", "Get recent activity across accessible spaces"⟩]

/-- `SearchTools.get_tool_names` (tools/search.py). -/
def get_tool_names : List String :=
  ["search_messages", "search_spaces", "search_members", "get_recent_activity"]

end SearchTools

namespace WebhookTools

/-- `WebhookTools.get_tools` (tools/webhooks.py). -/
def get_tools : List ToolSpec :=
  [⟨"send_webhook_message", "Send a message to a Google Chat space via incoming webhook"⟩,
   ⟨"create_card_message", "Create a rich card message for Google Chat"⟩,
   ⟨"parse_webhook_event", "Parse an incoming webhook event from Google Chat"⟩,
   ⟨"validate_webhook_signature", "Validate the signature of an incoming webhook request"⟩,
   ⟨"create_interactive_card", "Create an interactive card with buttons and actions"⟩]

/-- `WebhookTools.get_tool_names` (tools/webhooks.py). -/
def get_tool_names : List String :=
  ["send_webhook_message", "create_card_message", "parse_webhook_event",
   "validate_webhook_signature", "create_interactive_card"]

end WebhookTools

/-- The merge step of `handle_list_tools` (server.py): starting from an
empty list, `tools.extend(category.get_tools())` for each category in
turn — plain concatenation, with no duplicate-name detection and no
failure path (the function's type admits none). -/
def handleListToolsOf (categories : List (List ToolSpec)) : List ToolSpec :=
  categories.flatten

/-- `handle_list_tools` (server.py): the merged discovery list over the
five concrete categories, in registration order. -/
def handleListTools : List ToolSpec :=
  handleListToolsOf
    [MessageTools.get_tools, SpaceTools.get_tools, MemberTools.get_tools,
     SearchTools.get_tools, WebhookTools.get_tools]

/-- Every tool name any category's `get_tool_names` declares, in the
order `handle_call_tool` consults the categories. -/
def allToolNames : List String :=
  MessageTools.get_tool_names ++ SpaceTools.get_tool_names ++ MemberTools.get_tool_names
    ++ SearchTools.get_tool_names ++ WebhookTools.get_tool_names

/-- The message-body construction block shared (duplicated in the
source) by `send_message` and `send_webhook_message`: include `text`,
`cards` and `thread` only when present — absent fields are omitted, not
sent as null. -/
def buildMessageBody (args : Args) : List (String × Json) :=
  let messageBody : List (String × Json) := []
  let messageBody := match argGet? args "text" with
    | some v => kvSet messageBody "text" v
    | none => messageBody
  let messageBody := match argGet? args "cards" with
    | some v => kvSet messageBody "cards" v
    | none => messageBody
  match argGet? args "thread" with
  | some v => kvSet messageBody "thread" (.obj [("name", v)])
  | none => messageBody

/-! ## MessageTools (tools/messages.py) -/

namespace MessageTools

/-- `MessageTools.send_message`. -/
def send_message (auth : AuthState) (defaultSpace : Option String) (args : Args) :
    Json × List Call :=
  runMethod "send_message" do
    let service ← auth.getService
    let space ← validateSpace defaultSpace (argGet? args "space")
    let messageBody := buildMessageBody args
    let result ← service.callMessagesCreate space (.obj messageBody)
    let messageId ← result.getN "name"
    pure (.obj [("success", .bool true), ("message", result),
                ("message_id", messageId), ("space", space)])

/-- `MessageTools.list_messages`. -/
def list_messages (auth : AuthState) (defaultSpace : Option String) (args : Args) :
    Json × List Call :=
  runMethod "list_messages" do
    let service ← auth.getService
    let space ← validateSpace defaultSpace (argGet? args "space")
    let limit := argGetD args "limit" (.num 25)
    let orderBy := argGetD args "order_by" (.str "create_time desc")
    let pageSize ← pyMinNum limit 100
    let result ← service.callMessagesList space (.num pageSize) orderBy none
    let messages ← result.getD "messages" (.arr [])
    let count ← messages.pyLen
    pure (.obj [("success", .bool true), ("messages", messages),
                ("count", .num count), ("space", space)])

/-- `MessageTools.get_message`. -/
def get_message (auth : AuthState) (args : Args) : Json × List Call :=
  runMethod "get_message" do
    let service ← auth.getService
    let messageName ← argItem args "message"
    let result ← service.callMessagesGet messageName
    pure (.obj [("success", .bool true), ("message", result)])

/-- `MessageTools.update_message`. -/
def update_message (auth : AuthState) (args : Args) : Json × List Call :=
  runMethod "update_message" do
    let service ← auth.getService
    let messageName ← argItem args "message"
    let updateMask := argGetD args "update_mask" (.str "text,cards")
    let messageBody : List (String × Json) := []
    let messageBody := match argGet? args "text" with
      | some v => kvSet messageBody "text" v
      | none => messageBody
    let messageBody := match argGet? args "cards" with
      | some v => kvSet messageBody "cards" v
      | none => messageBody
    let result ← service.callMessagesPatch messageName updateMask (.obj messageBody)
    pure (.obj [("success", .bool true), ("message", result)])

/-- `MessageTools.delete_message`. -/
def delete_message (auth : AuthState) (args : Args) : Json × List Call :=
  runMethod "delete_message" do
    let service ← auth.getService
    let messageName ← argItem args "message"
    let _ ← service.callMessagesDelete messageName
    pure (.obj [("success", .bool true),
                ("message", .str ("Message " ++ messageName.pyStr ++ " deleted successfully"))])

/-- `MessageTools.execute`: `await self._ensure_authenticated()` runs
unguarded first (its failure propagates out of the executor), then the
name dispatch; an unowned name raises `ValueError`. -/
def execute (auth : AuthState) (defaultSpace : Option String) (toolName : String)
    (args : Args) : Except Exc (Json × List Call) := do
  let _ ← auth.ensureResult
  if toolName == "send_message" then pure (send_message auth defaultSpace args)
  else if toolName == "list_messages" then pure (list_messages auth defaultSpace args)
  else if toolName == "get_message" then pure (get_message auth args)
  else if toolName == "update_message" then pure (update_message auth args)
  else if toolName == "delete_message" then pure (delete_message auth args)
  else Except.error (.valueError ("Unknown message tool: " ++ toolName))

end MessageTools

/-! ## SpaceTools (tools/spaces.py) -/

namespace SpaceTools

/-- `SpaceTools.list_spaces`. -/
def list_spaces (auth : AuthState) (args : Args) : Json × List Call :=
  runMethod "list_spaces" do
    let service ← auth.getService
    let limit := argGetD args "limit" (.num 25)
    let filterQuery := argGet? args "filter"
    let pageSize ← pyMinNum limit 100
    let filter? := match filterQuery with
      | some v => if v.truthy then some v else none
      | none => none
    let result ← service.callSpacesList (some (.num pageSize)) filter?
    let spaces ← result.getD "spaces" (.arr [])
    let count ← spaces.pyLen
    pure (.obj [("success", .bool true), ("spaces", spaces), ("count", .num count)])

/-- `SpaceTools.get_space`. -/
def get_space (auth : AuthState) (args : Args) : Json × List Call :=
  runMethod "get_space" do
    let service ← auth.getService
    let spaceName ← argItem args "space"
    let result ← service.callSpacesGet spaceName
    pure (.obj [("success", .bool true), ("space", result)])

/-- `SpaceTools.create_space`.  The `external_user_allowed` branch
mutates the freshly-built `spaceDetails` sub-dict in place; the
embedding rebuilds it with the extra key appended, which is the same
dict. -/
def create_space (auth : AuthState) (args : Args) : Json × List Call :=
  runMethod "create_space" do
    let service ← auth.getService
    let displayName ← argItem args "display_name"
    let spaceBody : List (String × Json) :=
      [("displayName", displayName),
       ("spaceType", argGetD args "space_type" (.str "SPACE")),
       ("spaceDetails", .obj [("guidelines", .str "Space created via MCP server")])]
    let spaceBody := match argGet? args "threaded" with
      | some v => kvSet spaceBody "spaceThreadingState"
          (.str (if v.truthy then "THREADED_MESSAGES" else "UNTHREADED_MESSAGES"))
      | none => spaceBody
    let spaceBody := match argGet? args "external_user_allowed" with
      | some v => kvSet spaceBody "spaceDetails"
          (.obj [("guidelines", .str "Space created via MCP server"),
                 ("externalUserAllowed", v)])
      | none => spaceBody
    let result ← service.callSpacesCreate (.obj spaceBody)
    let spaceId ← result.getN "name"
    pure (.obj [("success", .bool true), ("space", result), ("space_id", spaceId)])

/-- `SpaceTools.update_space`. -/
def update_space (auth : AuthState) (args : Args) : Json × List Call :=
  runMethod "update_space" do
    let service ← auth.getService
    let spaceName ← argItem args "space"
    let updateMask := argGetD args "update_mask" (.str "displayName,spaceDetails")
    let spaceBody : List (String × Json) := []
    let spaceBody := match argGet? args "display_name" with
      | some v => kvSet spaceBody "displayName" v
      | none => spaceBody
    let spaceBody := match argGet? args "threaded" with
      | some v => kvSet spaceBody "spaceThreadingState"
          (.str (if v.truthy then "THREADED_MESSAGES" else "UNTHREADED_MESSAGES"))
      | none => spaceBody
    let spaceBody := match argGet? args "external_user_allowed" with
      | some v => kvSet spaceBody "spaceDetails" (.obj [("externalUserAllowed", v)])
      | none => spaceBody
    let result ← service.callSpacesPatch spaceName updateMask (.obj spaceBody)
    pure (.obj [("success", .bool true), ("space", result)])

/-- `SpaceTools.delete_space`. -/
def delete_space (auth : AuthState) (args : Args) : Json × List Call :=
  runMethod "delete_space" do
    let service ← auth.getService
    let spaceName ← argItem args "space"
    let _ ← service.callSpacesDelete spaceName
    pure (.obj [("success", .bool true),
                ("message", .str ("Space " ++ spaceName.pyStr ++ " deleted successfully"))])

/-- `SpaceTools.execute` (same unguarded-auth-then-dispatch shape as the
message executor). -/
def execute (auth : AuthState) (toolName : String) (args : Args) :
    Except Exc (Json × List Call) := do
  let _ ← auth.ensureResult
  if toolName == "list_spaces" then pure (list_spaces auth args)
  else if toolName == "get_space" then pure (get_space auth args)
  else if toolName == "create_space" then pure (create_space auth args)
  else if toolName == "update_space" then pure (update_space auth args)
  else if toolName == "delete_space" then pure (delete_space auth args)
  else Except.error (.valueError ("Unknown space tool: " ++ toolName))

end SpaceTools

/-! ## MemberTools (tools/members.py) -/

/-- The user-identifier normalization block duplicated inside
`create_membership` and `find_direct_message`:
email (`"@" in user`) and bare ids get a `users/` stem, `users/...`
passes through.  The membership test is Python `in`, so non-string
user values reach `startswith` and raise `AttributeError` exactly when
Python would. -/
def formatUserId (user : Json) : PyM Json := do
  let hasAt ← pyInJson (.str "@") user
  if hasAt then pure (.str ("users/" ++ user.pyStr))
  else
    match user with
    | .str s => pure (.str (if charsStart s.data "users/".data then s else "users/" ++ s))
    | _ => PyM.throw (.attributeError
        ("\x27" ++ user.typeName ++ "\x27 object has no attribute \x27startswith\x27"))

namespace MemberTools

/-- `MemberTools.list_members`. -/
def list_members (auth : AuthState) (defaultSpace : Option String) (args : Args) :
    Json × List Call :=
  runMethod "list_members" do
    let service ← auth.getService
    let space ← validateSpace defaultSpace (argGet? args "space")
    let limit := argGetD args "limit" (.num 25)
    let showGroups := argGetD args "show_groups" (.bool false)
    let showInvited := argGetD args "show_invited" (.bool true)
    let pageSize ← pyMinNum limit 100
    let result ← service.callMembersList space (some (.num pageSize))
      (some showGroups) (some showInvited)
    let members ← result.getD "memberships" (.arr [])
    let count ← members.pyLen
    pure (.obj [("success", .bool true), ("members", members),
                ("count", .num count), ("space", space)])

/-- `MemberTools.get_member`. -/
def get_member (auth : AuthState) (args : Args) : Json × List Call :=
  runMethod "get_member" do
    let service ← auth.getService
    let memberName ← argItem args "member"
    let result ← service.callMembersGet memberName
    pure (.obj [("success", .bool true), ("member", result)])

/-- `MemberTools.create_membership`. -/
def create_membership (auth : AuthState) (defaultSpace : Option String) (args : Args) :
    Json × List Call :=
  runMethod "create_membership" do
    let service ← auth.getService
    let space ← validateSpace defaultSpace (argGet? args "space")
    let user ← argItem args "user"
    let role := argGetD args "role" (.str "ROLE_MEMBER")
    let userId ← formatUserId user
    let membershipBody : Json :=
      .obj [("member", .obj [("name", userId), ("type", .str "HUMAN")]), ("role", role)]
    let result ← service.callMembersCreate space membershipBody
    let memberId ← result.getN "name"
    pure (.obj [("success", .bool true), ("membership", result),
                ("member_id", memberId), ("space", space)])

/-- `MemberTools.update_membership`. -/
def update_membership (auth : AuthState) (args : Args) : Json × List Call :=
  runMethod "update_membership" do
    let service ← auth.getService
    let memberName ← argItem args "member"
    let role ← argItem args "role"
    let updateMask := argGetD args "update_mask" (.str "role")
    let result ← service.callMembersPatch memberName updateMask (.obj [("role", role)])
    pure (.obj [("success", .bool true), ("membership", result)])

/-- `MemberTools.delete_membership`. -/
def delete_membership (auth : AuthState) (args : Args) : Json × List Call :=
  runMethod "delete_membership" do
    let service ← auth.getService
    let memberName ← argItem args "member"
    let _ ← service.callMembersDelete memberName
    pure (.obj [("success", .bool true),
                ("message", .str ("Member " ++ memberName.pyStr ++ " removed successfully"))])

/-- The membership filter
`[m for m in members if m.get("member", {}).get("name") == user_id]`. -/
def filterUserMembers (userId : Json) : List Json → PyM (List Json)
  | [] => pure []
  | m :: rest => do
    let memberInfo ← m.getD "member" (.obj [])
    let name ← memberInfo.getN "name"
    let tail ← filterUserMembers userId rest
    pure (if Json.beq name userId then m :: tail else tail)

/-- The `for space in spaces:` loop of `find_direct_message`.  Each
iteration lists the space's members with NO surrounding
`try/except HttpError` — a failing per-space call propagates and aborts
the whole lookup (unlike the search/recent-activity loops).
`space["name"]` is evaluated twice in the source (members-list parent
and the `space_id` field); both evaluations yield the same value, bound
once here. -/
def findDMLoop (service : Service) (userId user : Json) : List Json → PyM Json
  | [] => pure (.obj [("success", .bool false),
      ("message", .str ("No direct message space found with " ++ user.pyStr
        ++ ". Send a message to create one.")),
      ("user", userId)])
  | space :: rest => do
    let spaceName ← space.item "name"
    let membersResult ← service.callMembersList spaceName none none none
    let members ← (← membersResult.getD "memberships" (.arr [])).asList
    let userMembers ← filterUserMembers userId members
    if !userMembers.isEmpty then
      pure (.obj [("success", .bool true), ("space", space),
                  ("space_id", spaceName), ("existing", .bool true)])
    else findDMLoop service userId user rest

/-- `MemberTools.find_direct_message`. -/
def find_direct_message (auth : AuthState) (args : Args) : Json × List Call :=
  runMethod "find_direct_message" do
    let service ← auth.getService
    let user ← argItem args "user"
    let userId ← formatUserId user
    let spacesResult ← service.callSpacesList none (some (.str "spaceType=DIRECT_MESSAGE"))
    let spaces ← (← spacesResult.getD "spaces" (.arr [])).asList
    findDMLoop service userId user spaces

/-- `MemberTools.execute`. -/
def execute (auth : AuthState) (defaultSpace : Option String) (toolName : String)
    (args : Args) : Except Exc (Json × List Call) := do
  let _ ← auth.ensureResult
  if toolName == "list_members" then pure (list_members auth defaultSpace args)
  else if toolName == "get_member" then pure (get_member auth args)
  else if toolName == "create_membership" then pure (create_membership auth defaultSpace args)
  else if toolName == "update_membership" then pure (update_membership auth args)
  else if toolName == "delete_membership" then pure (delete_membership auth args)
  else if toolName == "find_direct_message" then pure (find_direct_message auth args)
  else Except.error (.valueError ("Unknown member tool: " ++ toolName))

end MemberTools

/-! ## Timestamps (`datetime.fromisoformat` on RFC3339 strings)

`get_recent_activity` parses `createTime` strings via
`datetime.fromisoformat(create_time_str.replace('Z', '+00:00'))` and
compares them against `datetime.now(timezone.utc) - timedelta(hours=hours)`.
The embedding measures instants in integer microseconds since the Unix
epoch.  The modelled grammar is
`YYYY-MM-DD[(T| )HH:MM:SS[.f{1..6}][±HH:MM]]` — the date-only and full
date-time shapes the Chat API and the verified inputs use (the
pre-3.11 truncated `HH[:MM]` forms and second-bearing offsets are not
modelled).  A missing offset yields a naive datetime; comparing it with
the aware threshold raises `TypeError` in Python, which the embedding
reproduces. -/
structure IsoDT where
  epochUs : Int
  aware : Bool
  deriving DecidableEq

/-- Gregorian leap year. -/
def isLeapYear (y : Int) : Bool := y % 4 == 0 && (y % 100 != 0 || y % 400 == 0)

def daysInMonth (y m : Int) : Int :=
  if m == 2 then (if isLeapYear y then 29 else 28)
  else if m == 4 || m == 6 || m == 9 || m == 11 then 30
  else 31

/-- Days from 1970-01-01 to y-m-d (valid dates with `y ≥ 1` only, so all
intermediate divisions act on non-negative values). -/
def daysFromCivil (y m d : Int) : Int :=
  let y2 := if m ≤ 2 then y - 1 else y
  let era := y2 / 400
  let yoe := y2 - era * 400
  let mp := (m + 9) % 12
  let doy := (153 * mp + 2) / 5 + d - 1
  let doe := yoe * 365 + yoe / 4 - yoe / 100 + doy
  era * 146097 + doe - 719468

def isDigitChar (c : Char) : Bool := c.isDigit

def twoDigits? : List Char → Option Int
  | [a, b] => if a.isDigit && b.isDigit then some ((a.toNat - 48) * 10 + (b.toNat - 48) : Int) else none
  | _ => none

def fourDigits? : List Char → Option Int
  | [a, b, c, d] =>
    if a.isDigit && b.isDigit && c.isDigit && d.isDigit then
      some (((a.toNat - 48) * 1000 + (b.toNat - 48) * 100 + (c.toNat - 48) * 10 + (d.toNat - 48) : Nat) : Int)
    else none
  | _ => none

/-- Fraction digits (1–6 of them) to microseconds. -/
def fracUs? (cs : List Char) : Option Int :=
  if cs.isEmpty || cs.length > 6 || !cs.all Char.isDigit then none
  else
    let v := cs.foldl (fun acc c => acc * 10 + (c.toNat - 48)) 0
    some ((v * 10 ^ (6 - cs.length) : Nat) : Int)

/-- Offset `±HH:MM` to signed seconds. -/
def offsetSec? : List Char → Option Int
  | s :: h1 :: h2 :: ':' :: m1 :: m2 :: [] =>
    if s == '+' || s == '-' then
      match twoDigits? [h1, h2], twoDigits? [m1, m2] with
      | some hh, some mm =>
        if hh ≤ 23 && mm ≤ 59 then
          some ((if s == '-' then -1 else 1) * (hh * 3600 + mm * 60))
        else none
      | _, _ => none
    else none
  | _ => none

/-- Time-of-day part `HH:MM:SS[.frac][offset]` → (seconds into day,
fraction µs, offset seconds or none). -/
def parseTimePart (cs : List Char) : Option (Int × Int × Option Int) :=
  match cs with
  | h1 :: h2 :: ':' :: m1 :: m2 :: ':' :: s1 :: s2 :: rest =>
    match twoDigits? [h1, h2], twoDigits? [m1, m2], twoDigits? [s1, s2] with
    | some hh, some mm, some ss =>
      if hh ≤ 23 && mm ≤ 59 && ss ≤ 59 then
        let sec := hh * 3600 + mm * 60 + ss
        match rest with
        | [] => some (sec, 0, none)
        | '.' :: fracRest =>
          let fracDigits := fracRest.takeWhile Char.isDigit
          let afterFrac := fracRest.drop fracDigits.length
          match fracUs? fracDigits with
          | some us =>
            match afterFrac with
            | [] => some (sec, us, none)
            | _ => (offsetSec? afterFrac).map (fun off => (sec, us, some off))
          | none => none
        | _ => (offsetSec? rest).map (fun off => (sec, 0, some off))
      else none
    | _, _, _ => none
  | _ => none

/-- `datetime.fromisoformat` on the modelled grammar: `none` is the
`ValueError` outcome. -/
def parseIso (cs : List Char) : Option IsoDT :=
  match cs with
  | y1 :: y2 :: y3 :: y4 :: '-' :: mo1 :: mo2 :: '-' :: d1 :: d2 :: rest =>
    match fourDigits? [y1, y2, y3, y4], twoDigits? [mo1, mo2], twoDigits? [d1, d2] with
    | some y, some m, some d =>
      if 1 ≤ y && 1 ≤ m && m ≤ 12 && 1 ≤ d && d ≤ daysInMonth y m then
        let dayUs : Int := daysFromCivil y m d * 86400000000
        match rest with
        | [] => some ⟨dayUs, false⟩
        | sep :: timeRest =>
          if sep == 'T' || sep == ' ' then
            (parseTimePart timeRest).map (fun (sec, us, off?) =>
              match off? with
              | some off => ⟨dayUs + sec * 1000000 + us - off * 1000000, true⟩
              | none => ⟨dayUs + sec * 1000000 + us, false⟩)
          else none
      else none
    | _, _, _ => none
  | _ => none

/-! ## The stable descending sort used by `get_recent_activity`

`activities.sort(key=lambda x: x["timestamp"], reverse=True)` is
CPython's stable sort with reversed comparisons; on a total preorder
every stable sort computes the same list, so a stable insertion sort
with the `key b ≤ key a` test embeds it. -/

/-- The `lambda x: x["timestamp"]` sort key, total on the activity
records the loop constructs (each carries a string `timestamp`). -/
def activityKey (a : Json) : List Char :=
  match a with
  | .obj kvs =>
    match kvLookup kvs "timestamp" with
    | some (.str s) => s.data
    | _ => []
  | _ => []

/-- Insert into a descending-sorted list, before the first element of
equal-or-smaller key (stability: earlier elements stay in front of
later equal-key elements). -/
def insertDescBy (key : Json → List Char) (a : Json) : List Json → List Json
  | [] => [a]
  | b :: bs => if lexLe (key b) (key a) then a :: b :: bs else b :: insertDescBy key a bs

/-- Stable descending sort by key. -/
def sortDescBy (key : Json → List Char) (l : List Json) : List Json :=
  l.foldr (insertDescBy key) []

/-! ## SearchTools (tools/search.py) -/

namespace SearchTools

/-- The client-side text filter
`[msg for msg in messages if query.lower() in msg.get("text", "").lower()]`
(case-insensitive substring; `query.lower()` is re-evaluated per
element, so an ill-typed query only raises when some message exists,
as in Python). -/
def filterByQuery (query : Json) : List Json → PyM (List Json)
  | [] => pure []
  | m :: rest => do
    let q ← query.pyLower
    let t ← (← m.getD "text" (.str "")).pyLower
    let tail ← filterByQuery query rest
    pure (if charsContain t.data q.data then m :: tail else tail)

/-- The per-space fetch of the all-spaces branch of `search_messages`:
list 20 recent messages and tag each with `_space_info`. -/
def searchFetchSpace (service : Service) (spaceInfo : Json) : PyM (List Json) := do
  let parent ← spaceInfo.item "name"
  let messagesResult ← service.callMessagesList parent (.num 20) (.str "create_time desc") none
  let spaceMessages ← (← messagesResult.getD "messages" (.arr [])).asList
  spaceMessages.mapM (fun m => m.setItem "_space_info" spaceInfo)

/-- The `for space_info in spaces:` loop of `search_messages`:
`except HttpError: continue` skips an inaccessible space; other
failures propagate. -/
def searchLoop (service : Service) : List Json → PyM (List Json)
  | [] => pure []
  | spaceInfo :: rest => do
    let msgs ← PyM.catchHttp (searchFetchSpace service spaceInfo) (pure [])
    let more ← searchLoop service rest
    pure (msgs ++ more)

/-- The single-space branch of `search_messages` (search within the
given space with a server-side text filter, then the client-side filter
and truncation). -/
def searchWithSpace (service : Service) (query limit orderBy sp : Json) :
    PyM (List Json) := do
  let pageSize ← pyMinNum limit 100
  let ob := if Json.beq orderBy (.str "relevance") then Json.str "create_time desc" else orderBy
  let result ← service.callMessagesList sp (.num pageSize) ob
    (some (.str ("text:\"" ++ query.pyStr ++ "\"")))
  let messages ← (← result.getD "messages" (.arr [])).asList
  let fm ← filterByQuery query messages
  pySliceTo fm limit

/-- The all-spaces branch of `search_messages` (list up to 50 spaces,
fetch recent messages from each, client-side filter, truncate). -/
def searchAllSpaces (service : Service) (query limit : Json) : PyM (List Json) := do
  let spacesResult ← service.callSpacesList (some (.num 50)) none
  let spaces ← (← spacesResult.getD "spaces" (.arr [])).asList
  let allMessages ← searchLoop service spaces
  let fm ← filterByQuery query allMessages
  pySliceTo fm limit

/-- `SearchTools.search_messages`.  The dead `search_params` dict of the
source is kept for its one observable effect: `min(limit, 100)` is
evaluated (and can raise `TypeError`) before the branch on `space`. -/
def search_messages (auth : AuthState) (args : Args) : Json × List Call :=
  runMethod "search_messages" do
    let service ← auth.getService
    let query ← argItem args "query"
    let limit := argGetD args "limit" (.num 25)
    let orderBy := argGetD args "order_by" (.str "relevance")
    let space := argGet? args "space"
    let _ ← pyMinNum limit 100
    let spaceTruthy := match space with
      | some v => v.truthy
      | none => false
    let filtered ←
      (if spaceTruthy then searchWithSpace service query limit orderBy (space.getD .null)
       else searchAllSpaces service query limit)
    pure (.obj [("success", .bool true), ("messages", .arr filtered),
                ("count", .num filtered.length), ("query", query),
                ("space", space.getD .null)])

/-- The filter/truncate loop of `search_spaces` (appends matches,
`break` once `len(filtered) >= limit`; the comparison raises `TypeError`
for a non-numeric limit, but only after a first match, as in Python). -/
def searchSpacesFilter (query : String) (limit : Json) (acc : List Json) :
    List Json → PyM (List Json)
  | [] => pure acc
  | space :: rest => do
    let displayName ← (← space.getD "displayName" (.str "")).pyLower
    let description ← (← (← space.getD "spaceDetails" (.obj [])).getD "description" (.str "")).pyLower
    let matched ←
      if charsContain displayName.data query.data || charsContain description.data query.data then
        pure true
      else do
        let nm ← (← space.getD "name" (.str "")).pyLower
        pure (charsContain nm.data query.data)
    if matched then
      let acc2 := acc ++ [space]
      let stop ← match limit with
        | .num n => pure (decide ((acc2.length : Int) ≥ n))
        | _ => PyM.throw (.typeError
            "\x27>=\x27 not supported between instances of \x27int\x27 and non-int")
      if stop then pure acc2 else searchSpacesFilter query limit acc2 rest
    else searchSpacesFilter query limit acc rest

/-- `SearchTools.search_spaces`. -/
def search_spaces (auth : AuthState) (args : Args) : Json × List Call :=
  runMethod "search_spaces" do
    let service ← auth.getService
    let query0 ← argItem args "query"
    let query ← query0.pyLower
    let spaceType := argGet? args "space_type"
    let limit := argGetD args "limit" (.num 25)
    let filter? := match spaceType with
      | some v => if v.truthy then some (Json.str ("spaceType=" ++ v.pyStr)) else none
      | none => none
    let result ← service.callSpacesList (some (.num 100)) filter?
    let spaces ← (← result.getD "spaces" (.arr [])).asList
    let filtered ← searchSpacesFilter query limit [] spaces
    pure (.obj [("success", .bool true), ("spaces", .arr filtered),
                ("count", .num filtered.length), ("query", query0),
                ("space_type", (spaceType.getD .null))])

/-- Per-space member fetch of the all-spaces branch of `search_members`
(inside `try`, so a failing space is skipped by the loop below). -/
def searchMembersFetch (service : Service) (spaceInfo : Json) : PyM (List Json) := do
  let parent ← spaceInfo.item "name"
  let membersResult ← service.callMembersList parent (some (.num 50)) none none
  let members ← (← membersResult.getD "memberships" (.arr [])).asList
  members.mapM (fun m => do
    let m1 ← m.setItem "_space" parent
    m1.setItem "_space_info" spaceInfo)

/-- The `for space_info in spaces:` loop of `search_members`. -/
def searchMembersLoop (service : Service) : List Json → PyM (List Json)
  | [] => pure []
  | spaceInfo :: rest => do
    let ms ← PyM.catchHttp (searchMembersFetch service spaceInfo) (pure [])
    let more ← searchMembersLoop service rest
    pure (ms ++ more)

/-- The filter/truncate loop of `search_members`. -/
def searchMembersFilter (query : String) (limit : Json) (acc : List Json) :
    List Json → PyM (List Json)
  | [] => pure acc
  | member :: rest => do
    let memberInfo ← member.getD "member" (.obj [])
    let displayName ← (← memberInfo.getD "displayName" (.str "")).pyLower
    let name ← (← memberInfo.getD "name" (.str "")).pyLower
    let matched ←
      if charsContain displayName.data query.data || charsContain name.data query.data then
        pure true
      else do
        let domainId ← memberInfo.getD "domainId" (.str "")
        pure (charsContain (strLower domainId.pyStr).data query.data)
    if matched then
      let acc2 := acc ++ [member]
      let stop ← match limit with
        | .num n => pure (decide ((acc2.length : Int) ≥ n))
        | _ => PyM.throw (.typeError
            "\x27>=\x27 not supported between instances of \x27int\x27 and non-int")
      if stop then pure acc2 else searchMembersFilter query limit acc2 rest
    else searchMembersFilter query limit acc rest

/-- The single-space branch of `search_members`. -/
def membersWithSpace (service : Service) (sp : Json) : PyM (List Json) := do
  let result ← service.callMembersList sp (some (.num 100)) none none
  let members ← (← result.getD "memberships" (.arr [])).asList
  members.mapM (fun m => m.setItem "_space" sp)

/-- The all-spaces branch of `search_members`. -/
def membersAllSpaces (service : Service) : PyM (List Json) := do
  let spacesResult ← service.callSpacesList (some (.num 50)) none
  let spaces ← (← spacesResult.getD "spaces" (.arr [])).asList
  searchMembersLoop service spaces

/-- `SearchTools.search_members`. -/
def search_members (auth : AuthState) (args : Args) : Json × List Call :=
  runMethod "search_members" do
    let service ← auth.getService
    let query0 ← argItem args "query"
    let query ← query0.pyLower
    let space := argGet? args "space"
    let limit := argGetD args "limit" (.num 25)
    let spaceTruthy := match space with
      | some v => v.truthy
      | none => false
    let allMembers ←
      (if spaceTruthy then membersWithSpace service (space.getD .null)
       else membersAllSpaces service)
    let filtered ← searchMembersFilter query limit [] allMembers
    pure (.obj [("success", .bool true), ("members", .arr filtered),
                ("count", .num filtered.length), ("query", query0),
                ("space", space.getD .null)])

/-- The per-message keep test inside `get_recent_activity`: a falsy
`createTime` is skipped; a parse failure (`ValueError`) is skipped by
the inner `except ValueError: continue`; a naive parsed timestamp makes
the aware/naive comparison raise `TypeError` (not caught there); a
non-string `createTime` makes `.replace` raise `AttributeError`. -/
def recentKeepTest (thresholdUs : Int) (ct : Json) : PyM Bool :=
  if ct.truthy then
    match ct with
    | .str s =>
      match parseIso (replaceAll s.data "Z".data "+00:00".data) with
      | none => pure false
      | some dt =>
        if dt.aware then pure (decide (dt.epochUs ≥ thresholdUs))
        else PyM.throw (.typeError "can't compare offset-naive and offset-aware datetimes")
    | _ => PyM.throw (.attributeError
        ("\x27" ++ ct.typeName ++ "\x27 object has no attribute \x27replace\x27"))
  else pure false

/-- The activity record appended for a kept message. -/
def mkActivity (ct spaceName spaceInfo msg : Json) : Json :=
  .obj [("type", .str "MESSAGE"), ("timestamp", ct), ("space", spaceName),
        ("space_info", spaceInfo), ("data", msg)]

/-- The `for msg in messages:` keep loop of `get_recent_activity`. -/
def recentKeep (thresholdUs : Int) (spaceName spaceInfo : Json) :
    List Json → PyM (List Json)
  | [] => pure []
  | msg :: rest => do
    let ct ← msg.getD "createTime" (.str "")
    let keep ← recentKeepTest thresholdUs ct
    let tail ← recentKeep thresholdUs spaceName spaceInfo rest
    pure (if keep then mkActivity ct spaceName spaceInfo msg :: tail else tail)

/-- The guarded per-space body of `get_recent_activity`: check
`"MESSAGE" in activity_types`, fetch `min(limit, 50)` recent messages,
keep the in-window ones. -/
def recentFetchSpace (service : Service) (thresholdUs : Int) (limit activityTypes : Json)
    (spaceName spaceInfo : Json) : PyM (List Json) := do
  let wantMessages ← pyInJson (.str "MESSAGE") activityTypes
  if wantMessages then
    let pageSize ← pyMinNum limit 50
    let messagesResult ← service.callMessagesList spaceName (.num pageSize)
      (.str "create_time desc") none
    let messages ← (← messagesResult.getD "messages" (.arr [])).asList
    recentKeep thresholdUs spaceName spaceInfo messages
  else pure []

/-- The `for space_info in spaces:` loop of `get_recent_activity`:
`space_name = space_info["name"]` is evaluated before the `try`, so its
failure propagates; the `try` around the fetch catches only
`HttpError` (skip the space). -/
def recentLoop (service : Service) (thresholdUs : Int) (limit activityTypes : Json) :
    List Json → PyM (List Json)
  | [] => pure []
  | spaceInfo :: rest => do
    let spaceName ← spaceInfo.item "name"
    let acts ← PyM.catchHttp
      (recentFetchSpace service thresholdUs limit activityTypes spaceName spaceInfo)
      (pure [])
    let more ← recentLoop service thresholdUs limit activityTypes rest
    pure (acts ++ more)

/-- The candidate-space selection of `get_recent_activity`: a truthy
`space` argument restricts the loop to that one (wrapped as
`[{"name": space}]`), otherwise up to 50 accessible spaces are listed. -/
def recentCandidateSpaces (service : Service) (space : Option Json) : PyM (List Json) :=
  match space with
  | some v =>
    if v.truthy then pure [Json.obj [("name", v)]]
    else do
      let spacesResult ← service.callSpacesList (some (.num 50)) none
      (← spacesResult.getD "spaces" (.arr [])).asList
  | none => do
    let spacesResult ← service.callSpacesList (some (.num 50)) none
    (← spacesResult.getD "spaces" (.arr [])).asList

/-- `SearchTools.get_recent_activity`.  `nowUs` is the single
`datetime.now(timezone.utc)` clock read, in microseconds since the
epoch; `timedelta(hours=hours)` requires a numeric `hours`. -/
def get_recent_activity (auth : AuthState) (nowUs : Int) (args : Args) : Json × List Call :=
  runMethod "get_recent_activity" do
    let service ← auth.getService
    let space := argGet? args "space"
    let hours := argGetD args "hours" (.num 24)
    let limit := argGetD args "limit" (.num 50)
    let activityTypes := argGetD args "activity_types" (.arr [.str "MESSAGE"])
    let hoursN ←
      (match hours with
       | .num n => pure n
       | _ => PyM.throw (.typeError
           ("unsupported type for timedelta hours component: " ++ hours.typeName)))
    let thresholdUs := nowUs - hoursN * 3600000000
    let spaces ← recentCandidateSpaces service space
    let activities ← recentLoop service thresholdUs limit activityTypes spaces
    let activities := sortDescBy activityKey activities
    let activities ← pySliceTo activities limit
    pure (.obj [("success", .bool true), ("activities", .arr activities),
                ("count", .num activities.length), ("hours", hours),
                ("activity_types", activityTypes), ("space", space.getD .null)])

/-- `SearchTools.execute`. -/
def execute (auth : AuthState) (nowUs : Int) (toolName : String) (args : Args) :
    Except Exc (Json × List Call) := do
  let _ ← auth.ensureResult
  if toolName == "search_messages" then pure (search_messages auth args)
  else if toolName == "search_spaces" then pure (search_spaces auth args)
  else if toolName == "search_members" then pure (search_members auth args)
  else if toolName == "get_recent_activity" then pure (get_recent_activity auth nowUs args)
  else Except.error (.valueError ("Unknown search tool: " ++ toolName))

end SearchTools

/-! ## WebhookTools (tools/webhooks.py) -/

namespace WebhookTools

/-- `WebhookTools.send_webhook_message`: POST the assembled body to the
webhook URL via aiohttp (the `net` environment); HTTP 200 yields a
success envelope with the parsed response, anything else an error
envelope with the status and raw text. -/
def send_webhook_message (net : Service) (args : Args) : Json × List Call :=
  runMethodPlain do
    let webhookUrl ← argItem args "webhook_url"
    let messageBody := buildMessageBody args
    let (status, result, errorText) ← net.callHttpPost webhookUrl (.obj messageBody)
    if status == 200 then
      pure (.obj [("success", .bool true), ("message", .str "Message sent via webhook"),
                  ("response", result)])
    else
      pure (.obj [("error", .str ("Webhook request failed: " ++ intRepr status)),
                  ("details", .str errorText)])

/-- One button widget of `create_card_message` (`url` wins over
`action`; neither leaves the bare text button). -/
def buildButtonWidget (button : Json) : PyM Json := do
  let btext ← button.item "text"
  let hasUrl ← pyInJson (.str "url") button
  if hasUrl then
    let u ← button.item "url"
    pure (.obj [("buttons", .arr [.obj [("textButton",
      .obj [("text", btext), ("onClick", .obj [("openLink", .obj [("url", u)])])])]])])
  else
    let hasAction ← pyInJson (.str "action") button
    if hasAction then
      let a ← button.item "action"
      pure (.obj [("buttons", .arr [.obj [("textButton",
        .obj [("text", btext), ("onClick", .obj [("action", .obj [("actionMethodName", a)])])])]])])
    else
      pure (.obj [("buttons", .arr [.obj [("textButton", .obj [("text", btext)])]])])

/-- The button-section step of `create_card_message` (`if buttons:` —
iterate the buttons, build widgets, append one widgets section when any
were built). -/
def cardButtonSections (buttons : Json) (sections : List Json) : PyM (List Json) :=
  if buttons.truthy then do
    let buttonList ← buttons.asList
    let buttonWidgets ← buttonList.mapM buildButtonWidget
    if !buttonWidgets.isEmpty then
      pure (sections ++ [.obj [("widgets", .arr buttonWidgets)]])
    else pure sections
  else pure sections

/-- `WebhookTools.create_card_message`. -/
def create_card_message (args : Args) : Json × List Call :=
  runMethodPlain do
    let title ← argItem args "title"
    let subtitle := argGet? args "subtitle"
    let text := argGet? args "text"
    let imageUrl := argGet? args "image_url"
    let buttons := argGetD args "buttons" (.arr [])
    let color := argGet? args "color"
    let header : List (String × Json) := [("title", title)]
    let header := match subtitle with
      | some v => if v.truthy then kvSet header "subtitle" v else header
      | none => header
    let header := match imageUrl with
      | some v => if v.truthy then kvSet header "imageUrl" v else header
      | none => header
    let header := match color with
      | some v => if v.truthy then kvSet header "imageStyle" (.str "IMAGE") else header
      | none => header
    let card : List (String × Json) := [("header", .obj header)]
    let sections : List Json :=
      match text with
      | some v =>
        if v.truthy then
          [.obj [("widgets", .arr [.obj [("textParagraph", .obj [("text", v)])]])]]
        else []
      | none => []
    let sections ← cardButtonSections buttons sections
    let card := if !sections.isEmpty then kvSet card "sections" (.arr sections) else card
    pure (.obj [("success", .bool true), ("card", .obj card), ("cards", .arr [.obj card])])

/-- The message part of `parse_webhook_event` (`if message:` — extract
and append the parsed message fields). -/
def parseEventMessagePart (message : Json) (parsedEvent : List (String × Json)) :
    PyM (List (String × Json)) :=
  if message.truthy then do
    let mName ← message.getN "name"
    let mText ← message.getN "text"
    let mCreateTime ← message.getN "createTime"
    let mSender ← message.getD "sender" (.obj [])
    let mThread ← message.getD "thread" (.obj [])
    let mAnn ← message.getD "annotations" (.arr [])
    pure (kvSet parsedEvent "message" (.obj
      [("name", mName), ("text", mText), ("create_time", mCreateTime),
       ("sender", mSender), ("thread", mThread), ("annotations", mAnn)]))
  else pure parsedEvent

/-- The action part of `parse_webhook_event` (`if "action" in event_data:`). -/
def parseEventActionPart (eventData : Json) (parsedEvent : List (String × Json)) :
    PyM (List (String × Json)) := do
  let hasAction ← pyInJson (.str "action") eventData
  if hasAction then do
    let action ← eventData.item "action"
    let amn ← action.getN "actionMethodName"
    let params ← action.getD "parameters" (.arr [])
    pure (kvSet parsedEvent "action" (.obj
      [("action_method_name", amn), ("parameters", params)]))
  else pure parsedEvent

/-- `WebhookTools.parse_webhook_event`. -/
def parse_webhook_event (args : Args) : Json × List Call :=
  runMethodPlain do
    let eventData ← argItem args "event_data"
    let eventType ← eventData.getD "type" (.str "UNKNOWN")
    let eventTime ← eventData.getN "eventTime"
    let space ← eventData.getD "space" (.obj [])
    let user ← eventData.getD "user" (.obj [])
    let message ← eventData.getD "message" (.obj [])
    let spaceName ← space.getN "name"
    let spaceDisplayName ← space.getN "displayName"
    let spaceType ← space.getN "type"
    let userName ← user.getN "name"
    let userDisplayName ← user.getN "displayName"
    let userEmail ← user.getN "email"
    let userType ← user.getN "type"
    let parsedEvent : List (String × Json) :=
      [("event_type", eventType), ("event_time", eventTime),
       ("space", .obj [("name", spaceName), ("display_name", spaceDisplayName),
                       ("type", spaceType)]),
       ("user", .obj [("name", userName), ("display_name", userDisplayName),
                      ("email", userEmail), ("type", userType)])]
    let parsedEvent ← parseEventMessagePart message parsedEvent
    let parsedEvent ← parseEventActionPart eventData parsedEvent
    pure (.obj [("success", .bool true), ("parsed_event", .obj parsedEvent),
                ("original_event", eventData)])

/-- `.items()` of a JSON value (`AttributeError` off a non-dict). -/
def Json.asItems (j : Json) : PyM (List (String × Json)) :=
  match j with
  | .obj kvs => pure kvs
  | _ => PyM.throw (.attributeError
      ("\x27" ++ j.typeName ++ "\x27 object has no attribute \x27items\x27"))

/-- One iteration of the signature-header parsing loop: split the part
at its first `=` and store the binding, skip parts without `=`. -/
def sigPartStep (d : List (String × String)) (part : List Char) : List (String × String) :=
  match splitOnce part '=' with
  | some (k, v) => kvSetS d ⟨k⟩ ⟨v⟩
  | none => d

/-- The `signature_parts` dict built by the header parsing loop. -/
def sigPartsFold (parts : List (List Char)) : List (String × String) :=
  parts.foldl sigPartStep []

/-- `WebhookTools.validate_webhook_signature`.  `nowSec` is the single
`int(time.time())` clock read. -/
def validate_webhook_signature (nowSec : Int) (args : Args) : Json × List Call :=
  runMethodPlain do
    let requestBody ← argItem args "request_body"
    let signature ← argItem args "signature"
    let timestamp ← argItem args "timestamp"
    let webhookSecret ← argItem args "webhook_secret"
    let stringToSign := timestamp.pyStr ++ "." ++ requestBody.pyStr
    let secretS ←
      (match webhookSecret with
       | .str s => pure s
       | _ => PyM.throw (.attributeError
           ("\x27" ++ webhookSecret.typeName ++ "\x27 object has no attribute \x27encode\x27")))
    let expectedSignatureB64 :=
      b64Encode (hmacSha256 (utf8Encode secretS) (utf8Encode stringToSign))
    let sigS ←
      (match signature with
       | .str s => pure s
       | _ => PyM.throw (.attributeError
           ("\x27" ++ signature.typeName ++ "\x27 object has no attribute \x27split\x27")))
    let signatureParts := sigPartsFold (pySplitOn sigS.data ',')
    let providedSignature := (kvLookupS signatureParts "v1").getD ""
    let isValid ← compareDigest expectedSignatureB64 providedSignature
    let requestTime ← pyIntOf timestamp
    let timeDiff : Int := (nowSec - requestTime).natAbs
    let isRecent := decide (timeDiff ≤ 300)
    pure (.obj [("success", .bool true), ("is_valid", .bool isValid),
                ("is_recent", .bool isRecent),
                ("time_difference_seconds", .num timeDiff),
                ("signature_valid", .bool (isValid && isRecent))])

/-- One card section of `create_interactive_card`. -/
def buildCardSection (section2 : Json) : PyM Json := do
  let hasHeader ← pyInJson (.str "header") section2
  let cardSection : List (String × Json) ←
    if hasHeader then do
      let h ← section2.item "header"
      pure [("header", h)]
    else pure []
  let hasWidgets ← pyInJson (.str "widgets") section2
  let cardSection ←
    if hasWidgets then do
      let w ← section2.item "widgets"
      pure (kvSet cardSection "widgets" w)
    else pure cardSection
  pure (.obj cardSection)

/-- One action-button widget of `create_interactive_card` (with the
`parameters` list rebuilt as `[{"key": k, "value": v}]` pairs). -/
def buildActionWidget (action : Json) : PyM Json := do
  let buttonText ← action.item "button_text"
  let actionId ← action.item "action_id"
  let hasParams ← pyInJson (.str "parameters") action
  let actionPart : List (String × Json) ←
    if hasParams then do
      let ps ← action.item "parameters"
      let items ← Json.asItems ps
      pure [("actionMethodName", actionId),
            ("parameters", .arr (items.map (fun kv =>
              Json.obj [("key", .str kv.1), ("value", kv.2)])))]
    else pure [("actionMethodName", actionId)]
  pure (.obj [("buttons", .arr [.obj [("textButton",
    .obj [("text", buttonText), ("onClick", .obj [("action", .obj actionPart)])])]])])

/-- The action-section step of `create_interactive_card`
(`if actions:` — build the action widgets and append them as one extra
section). -/
def interactiveActionSections (actions : Json) (builtSections : List Json) :
    PyM (List Json) :=
  if actions.truthy then do
    let actionList ← actions.asList
    let actionWidgets ← actionList.mapM buildActionWidget
    pure (builtSections ++ [Json.obj [("widgets", .arr actionWidgets)]])
  else pure builtSections

/-- `WebhookTools.create_interactive_card`. -/
def create_interactive_card (args : Args) : Json × List Call :=
  runMethodPlain do
    let title ← argItem args "title"
    let sections := argGetD args "sections" (.arr [])
    let actions := argGetD args "actions" (.arr [])
    let sectionList ← sections.asList
    let builtSections ← sectionList.mapM buildCardSection
    let builtSections ← interactiveActionSections actions builtSections
    pure (.obj [("success", .bool true),
                ("card", .obj [("header", .obj [("title", title)]),
                               ("sections", .arr builtSections)]),
                ("cards", .arr [.obj [("header", .obj [("title", title)]),
                                      ("sections", .arr builtSections)]])])

/-- `WebhookTools.execute`: webhook tools do NOT call
`_ensure_authenticated` (they work with webhook URLs or local data
only); `net` is the aiohttp environment used by
`send_webhook_message`, `nowSec` the clock read used by
`validate_webhook_signature`. -/
def execute (net : Service) (nowSec : Int) (toolName : String) (args : Args) :
    Except Exc (Json × List Call) :=
  if toolName == "send_webhook_message" then .ok (send_webhook_message net args)
  else if toolName == "create_card_message" then .ok (create_card_message args)
  else if toolName == "parse_webhook_event" then .ok (parse_webhook_event args)
  else if toolName == "validate_webhook_signature" then .ok (validate_webhook_signature nowSec args)
  else if toolName == "create_interactive_card" then .ok (create_interactive_card args)
  else .error (.valueError ("Unknown webhook tool: " ++ toolName))

end WebhookTools

/-! ## The Dispatcher (`handle_call_tool` in server.py) -/

/-- An MCP `TextContent` block (`type="text"` always; only the text
varies). -/
structure TextContent where
  text : String

/-- JSON string escaping of the characters the embedded envelopes can
produce. -/
def jsonEscape : List Char → List Char
  | [] => []
  | c :: rest =>
    (if c == '"' then ['\\', '"']
     else if c == '\\' then ['\\', '\\']
     else if c == '\n' then ['\\', 'n']
     else if c == '\t' then ['\\', 't']
     else if c == '\r' then ['\\', 'r']
     else [c]) ++ jsonEscape rest

mutual
/-- `json.dumps(result, indent=2)` up to insertion-order-preserving
content (the `indent=2` pretty-printing whitespace is not modelled;
every theorem about the dispatcher concerns which JSON document is
emitted, not its layout). -/
def jsonDumps : Json → String
  | .null => "null"
  | .bool b => if b then "true" else "false"
  | .num n => intRepr n
  | .str s => "\"" ++ (⟨jsonEscape s.data⟩ : String) ++ "\""
  | .arr xs => "[" ++ jsonDumpsList xs ++ "]"
  | .obj kvs => "\x7b" ++ jsonDumpsKV kvs ++ "\x7d"

def jsonDumpsList : List Json → String
  | [] => ""
  | [x] => jsonDumps x
  | x :: rest => jsonDumps x ++ ", " ++ jsonDumpsList rest

def jsonDumpsKV : List (String × Json) → String
  | [] => ""
  | [(k, v)] => "\"" ++ k ++ "\": " ++ jsonDumps v
  | (k, v) :: rest => "\"" ++ k ++ "\": " ++ jsonDumps v ++ ", " ++ jsonDumpsKV rest
end

/-- The routing step of `handle_call_tool`: membership in each
category's `get_tool_names()`, in registration order; an unowned name
raises `ValueError("Unknown tool: ...")`.  The result is the executor's
outcome (envelope, or the exception about to hit the outer catch). -/
def routeTool (auth : AuthState) (net : Service) (defaultSpace : Option String)
    (nowUs nowSec : Int) (toolName : String) (args : Args) : Except Exc Json :=
  if MessageTools.get_tool_names.contains toolName then
    (MessageTools.execute auth defaultSpace toolName args).map Prod.fst
  else if SpaceTools.get_tool_names.contains toolName then
    (SpaceTools.execute auth toolName args).map Prod.fst
  else if MemberTools.get_tool_names.contains toolName then
    (MemberTools.execute auth none toolName args).map Prod.fst
  else if SearchTools.get_tool_names.contains toolName then
    (SearchTools.execute auth nowUs toolName args).map Prod.fst
  else if WebhookTools.get_tool_names.contains toolName then
    (WebhookTools.execute net nowSec toolName args).map Prod.fst
  else .error (.valueError ("Unknown tool: " ++ toolName))

/-- `handle_call_tool` (server.py): route, then convert the envelope to
one `TextContent` (strings pass through, dicts are JSON-encoded,
anything else is `str()`-ed); the outer `except Exception` converts any
escaped failure into an `"Error: ..."` text block.  Note the
constructor wiring of `GoogleChatMCPServer.__init__`: only
`MessageTools` receives the configured default space. -/
def handleCallTool (auth : AuthState) (net : Service) (defaultSpace : Option String)
    (nowUs nowSec : Int) (toolName : String) (args : Args) : List TextContent :=
  match routeTool auth net defaultSpace nowUs nowSec toolName args with
  | .ok result =>
    match result with
    | .str s => [⟨s⟩]
    | .obj kvs => [⟨jsonDumps (.obj kvs)⟩]
    | other => [⟨other.pyStr⟩]
  | .error e => [⟨"Error: " ++ e.msgStr⟩]

/-! ## Basic lemmas about the embedding -/

/-- Is the value a Python dict (the shape of every ResultEnvelope)? -/
def Json.isObjB : Json → Bool
  | .obj _ => true
  | _ => false

theorem Json.isObjB_exists {v : Json} (h : v.isObjB = true) :
    ∃ kvs, v = .obj kvs := by
  cases v <;> simp [Json.isObjB] at h ⊢

theorem fst_bind (x : PyM α) (f : α → PyM β) :
    (x >>= f).1 = match x.1 with
      | .ok a => (f a).1
      | .error e => .error e := by
  rcases x with ⟨r, w⟩
  rcases r <;> rfl

theorem snd_bind (x : PyM α) (f : α → PyM β) :
    (x >>= f).2 = match x.1 with
      | .ok a => x.2 ++ (f a).2
      | .error _ => x.2 := by
  rcases x with ⟨r, w⟩
  rcases r <;> rfl

theorem fst_pure (a : α) : (pure a : PyM α).1 = .ok a := rfl

theorem snd_pure (a : α) : (pure a : PyM α).2 = [] := rfl

theorem handleApiError_isObj (e : Exc) (op : String) : (handleApiError e op).isObjB = true := by
  unfold handleApiError
  split <;> rfl

theorem runMethod_isObj (op : String) (body : PyM Json)
    (h : ∀ v, body.1 = Except.ok v → v.isObjB = true) :
    (runMethod op body).1.isObjB = true := by
  obtain ⟨r, w⟩ := body
  rcases r with e | v
  · show (if e.isHttp = true then handleApiError e op
      else Json.obj [("error", Json.str e.msgStr)]).isObjB = true
    split
    · exact handleApiError_isObj _ _
    · rfl
  · exact h v rfl

theorem runMethodPlain_isObj (body : PyM Json)
    (h : ∀ v, body.1 = Except.ok v → v.isObjB = true) :
    (runMethodPlain body).1.isObjB = true := by
  obtain ⟨r, w⟩ := body
  rcases r with e | v
  · rfl
  · exact h v rfl

/-! ### Every tool body yields a dict-shaped envelope

`okShape_bind` peels one monadic step: if the step fails the whole
chain fails (never `.ok`), so only the continuation determines the
shape of a successful value.  One lemma per method then shows that the
value inside the method's outcome is a Python dict — the success
envelope or one of the error envelopes — whatever the environment
answers and whatever the argument bag holds. -/

theorem okShape_bind {α β : Type} {x : PyM α} {f : α → PyM β} {P : β → Prop}
    (hf : ∀ a v, (f a).1 = Except.ok v → P v) :
    ∀ v, (x >>= f).1 = Except.ok v → P v := by
  intro v h
  rw [fst_bind] at h
  split at h
  · exact hf _ v h
  · cases h

theorem send_message_isObj (auth : AuthState) (ds : Option String) (args : Args) :
    (MessageTools.send_message auth ds args).1.isObjB = true := by
  unfold MessageTools.send_message
  apply runMethod_isObj
  repeat (apply okShape_bind; intro _)
  intro v h
  repeat' split at h
  all_goals first
    | (injection h with h; subst h; rfl)
    | (cases h)

theorem list_messages_isObj (auth : AuthState) (ds : Option String) (args : Args) :
    (MessageTools.list_messages auth ds args).1.isObjB = true := by
  unfold MessageTools.list_messages
  apply runMethod_isObj
  repeat (apply okShape_bind; intro _)
  intro v h
  repeat' split at h
  all_goals first
    | (injection h with h; subst h; rfl)
    | (cases h)

theorem get_message_isObj (auth : AuthState) (args : Args) :
    (MessageTools.get_message auth args).1.isObjB = true := by
  unfold MessageTools.get_message
  apply runMethod_isObj
  repeat (apply okShape_bind; intro _)
  intro v h
  repeat' split at h
  all_goals first
    | (injection h with h; subst h; rfl)
    | (cases h)

theorem update_message_isObj (auth : AuthState) (args : Args) :
    (MessageTools.update_message auth args).1.isObjB = true := by
  unfold MessageTools.update_message
  apply runMethod_isObj
  repeat (apply okShape_bind; intro _)
  intro v h
  repeat' split at h
  all_goals first
    | (injection h with h; subst h; rfl)
    | (cases h)

theorem delete_message_isObj (auth : AuthState) (args : Args) :
    (MessageTools.delete_message auth args).1.isObjB = true := by
  unfold MessageTools.delete_message
  apply runMethod_isObj
  repeat (apply okShape_bind; intro _)
  intro v h
  repeat' split at h
  all_goals first
    | (injection h with h; subst h; rfl)
    | (cases h)

theorem list_spaces_isObj (auth : AuthState) (args : Args) :
    (SpaceTools.list_spaces auth args).1.isObjB = true := by
  unfold SpaceTools.list_spaces
  apply runMethod_isObj
  repeat (apply okShape_bind; intro _)
  intro v h
  repeat' split at h
  all_goals first
    | (injection h with h; subst h; rfl)
    | (cases h)

theorem get_space_isObj (auth : AuthState) (args : Args) :
    (SpaceTools.get_space auth args).1.isObjB = true := by
  unfold SpaceTools.get_space
  apply runMethod_isObj
  repeat (apply okShape_bind; intro _)
  intro v h
  repeat' split at h
  all_goals first
    | (injection h with h; subst h; rfl)
    | (cases h)

theorem create_space_isObj (auth : AuthState) (args : Args) :
    (SpaceTools.create_space auth args).1.isObjB = true := by
  unfold SpaceTools.create_space
  apply runMethod_isObj
  repeat (apply okShape_bind; intro _)
  intro v h
  repeat' split at h
  all_goals first
    | (injection h with h; subst h; rfl)
    | (cases h)

theorem update_space_isObj (auth : AuthState) (args : Args) :
    (SpaceTools.update_space auth args).1.isObjB = true := by
  unfold SpaceTools.update_space
  apply runMethod_isObj
  repeat (apply okShape_bind; intro _)
  intro v h
  repeat' split at h
  all_goals first
    | (injection h with h; subst h; rfl)
    | (cases h)

theorem delete_space_isObj (auth : AuthState) (args : Args) :
    (SpaceTools.delete_space auth args).1.isObjB = true := by
  unfold SpaceTools.delete_space
  apply runMethod_isObj
  repeat (apply okShape_bind; intro _)
  intro v h
  repeat' split at h
  all_goals first
    | (injection h with h; subst h; rfl)
    | (cases h)

theorem list_members_isObj (auth : AuthState) (ds : Option String) (args : Args) :
    (MemberTools.list_members auth ds args).1.isObjB = true := by
  unfold MemberTools.list_members
  apply runMethod_isObj
  repeat (apply okShape_bind; intro _)
  intro v h
  repeat' split at h
  all_goals first
    | (injection h with h; subst h; rfl)
    | (cases h)

theorem get_member_isObj (auth : AuthState) (args : Args) :
    (MemberTools.get_member auth args).1.isObjB = true := by
  unfold MemberTools.get_member
  apply runMethod_isObj
  repeat (apply okShape_bind; intro _)
  intro v h
  repeat' split at h
  all_goals first
    | (injection h with h; subst h; rfl)
    | (cases h)

theorem create_membership_isObj (auth : AuthState) (ds : Option String) (args : Args) :
    (MemberTools.create_membership auth ds args).1.isObjB = true := by
  unfold MemberTools.create_membership
  apply runMethod_isObj
  repeat (apply okShape_bind; intro _)
  intro v h
  repeat' split at h
  all_goals first
    | (injection h with h; subst h; rfl)
    | (cases h)

theorem update_membership_isObj (auth : AuthState) (args : Args) :
    (MemberTools.update_membership auth args).1.isObjB = true := by
  unfold MemberTools.update_membership
  apply runMethod_isObj
  repeat (apply okShape_bind; intro _)
  intro v h
  repeat' split at h
  all_goals first
    | (injection h with h; subst h; rfl)
    | (cases h)

theorem delete_membership_isObj (auth : AuthState) (args : Args) :
    (MemberTools.delete_membership auth args).1.isObjB = true := by
  unfold MemberTools.delete_membership
  apply runMethod_isObj
  repeat (apply okShape_bind; intro _)
  intro v h
  repeat' split at h
  all_goals first
    | (injection h with h; subst h; rfl)
    | (cases h)

theorem findDMLoop_okShape (svc : Service) (userId user : Json) :
    ∀ (l : List Json) (v : Json),
      (MemberTools.findDMLoop svc userId user l).1 = Except.ok v → v.isObjB = true := by
  intro l
  induction l with
  | nil =>
    intro v h
    injection h with h
    subst h
    rfl
  | cons s rest ih =>
    unfold MemberTools.findDMLoop
    repeat (apply okShape_bind; intro _)
    intro v h
    repeat' split at h
    all_goals first
      | (injection h with h; subst h; rfl)
      | (cases h)
      | (exact ih v h)

theorem find_direct_message_isObj (auth : AuthState) (args : Args) :
    (MemberTools.find_direct_message auth args).1.isObjB = true := by
  unfold MemberTools.find_direct_message
  apply runMethod_isObj
  repeat (apply okShape_bind; intro _)
  intro v h
  repeat' split at h
  all_goals first
    | (injection h with h; subst h; rfl)
    | (cases h)
    | (exact findDMLoop_okShape _ _ _ _ v h)

theorem search_messages_isObj (auth : AuthState) (args : Args) :
    (SearchTools.search_messages auth args).1.isObjB = true := by
  unfold SearchTools.search_messages
  apply runMethod_isObj
  repeat (apply okShape_bind; intro _)
  intro v h
  repeat' split at h
  all_goals first
    | (injection h with h; subst h; rfl)
    | (cases h)

theorem search_spaces_isObj (auth : AuthState) (args : Args) :
    (SearchTools.search_spaces auth args).1.isObjB = true := by
  unfold SearchTools.search_spaces
  apply runMethod_isObj
  repeat (apply okShape_bind; intro _)
  intro v h
  repeat' split at h
  all_goals first
    | (injection h with h; subst h; rfl)
    | (cases h)

theorem search_members_isObj (auth : AuthState) (args : Args) :
    (SearchTools.search_members auth args).1.isObjB = true := by
  unfold SearchTools.search_members
  apply runMethod_isObj
  repeat (apply okShape_bind; intro _)
  intro v h
  repeat' split at h
  all_goals first
    | (injection h with h; subst h; rfl)
    | (cases h)

theorem get_recent_activity_isObj (auth : AuthState) (nowUs : Int) (args : Args) :
    (SearchTools.get_recent_activity auth nowUs args).1.isObjB = true := by
  unfold SearchTools.get_recent_activity
  apply runMethod_isObj
  repeat (apply okShape_bind; intro _)
  intro v h
  repeat' split at h
  all_goals first
    | (injection h with h; subst h; rfl)
    | (cases h)

theorem send_webhook_message_isObj (net : Service) (args : Args) :
    (WebhookTools.send_webhook_message net args).1.isObjB = true := by
  unfold WebhookTools.send_webhook_message
  apply runMethodPlain_isObj
  repeat (apply okShape_bind; intro _)
  intro v h
  repeat' split at h
  all_goals first
    | (injection h with h; subst h; rfl)
    | (cases h)

theorem create_card_message_isObj (args : Args) :
    (WebhookTools.create_card_message args).1.isObjB = true := by
  unfold WebhookTools.create_card_message
  apply runMethodPlain_isObj
  repeat (apply okShape_bind; intro _)
  intro v h
  repeat' split at h
  all_goals first
    | (injection h with h; subst h; rfl)
    | (cases h)

theorem parse_webhook_event_isObj (args : Args) :
    (WebhookTools.parse_webhook_event args).1.isObjB = true := by
  unfold WebhookTools.parse_webhook_event
  apply runMethodPlain_isObj
  repeat (apply okShape_bind; intro _)
  intro v h
  repeat' split at h
  all_goals first
    | (injection h with h; subst h; rfl)
    | (cases h)

theorem validate_webhook_signature_isObj (nowSec : Int) (args : Args) :
    (WebhookTools.validate_webhook_signature nowSec args).1.isObjB = true := by
  unfold WebhookTools.validate_webhook_signature
  apply runMethodPlain_isObj
  repeat (apply okShape_bind; intro _)
  intro v h
  repeat' split at h
  all_goals first
    | (injection h with h; subst h; rfl)
    | (cases h)

theorem create_interactive_card_isObj (args : Args) :
    (WebhookTools.create_interactive_card args).1.isObjB = true := by
  unfold WebhookTools.create_interactive_card
  apply runMethodPlain_isObj
  repeat (apply okShape_bind; intro _)
  intro v h
  repeat' split at h
  all_goals first
    | (injection h with h; subst h; rfl)
    | (cases h)

/-! ## Concrete environments used by witnesses and counterexamples -/

/-- A benign remote system: every endpoint answers with the natural
empty payload. -/
def svcEmpty : Service where
  messagesCreate := fun _ _ => .ok (.obj [("name", .str "spaces/x/messages/1")])
  messagesList := fun _ _ _ _ => .ok (.obj [("messages", .arr [])])
  messagesGet := fun _ => .ok (.obj [])
  messagesPatch := fun _ _ _ => .ok (.obj [])
  messagesDelete := fun _ => .ok (.obj [])
  spacesList := fun _ _ => .ok (.obj [("spaces", .arr [])])
  spacesGet := fun _ => .ok (.obj [])
  spacesCreate := fun _ => .ok (.obj [("name", .str "spaces/new")])
  spacesPatch := fun _ _ _ => .ok (.obj [])
  spacesDelete := fun _ => .ok (.obj [])
  membersList := fun _ _ _ _ => .ok (.obj [("memberships", .arr [])])
  membersGet := fun _ => .ok (.obj [])
  membersCreate := fun _ _ => .ok (.obj [("name", .str "spaces/x/members/1")])
  membersPatch := fun _ _ _ => .ok (.obj [])
  membersDelete := fun _ => .ok (.obj [])
  httpPost := fun _ _ => .ok (200, .obj [], "")

/-- A pair whose first component is a dict equals the rebuilt pair. -/
theorem pair_fst_obj {p : Json × List Call} {kvs : List (String × Json)}
    (h : p.1 = .obj kvs) : p = (.obj kvs, p.2) := by
  rw [← h]

/-! ## C10 -/

/-- C10: for every provider category, the names of the ToolSpecs
returned by `get_tools()` are exactly (and in the same order as) the
names returned by `get_tool_names()` — so every tool advertised in
discovery is dispatchable and every dispatchable name is advertised. -/
theorem C10_catalog_names_agree :
    MessageTools.get_tools.map ToolSpec.name = MessageTools.get_tool_names ∧
    SpaceTools.get_tools.map ToolSpec.name = SpaceTools.get_tool_names ∧
    MemberTools.get_tools.map ToolSpec.name = MemberTools.get_tool_names ∧
    SearchTools.get_tools.map ToolSpec.name = SearchTools.get_tool_names ∧
    WebhookTools.get_tools.map ToolSpec.name = WebhookTools.get_tool_names :=
  ⟨rfl, rfl, rfl, rfl, rfl⟩

/-! ## C2 -/

/-- C2 counterexample: the Dispatcher performs no duplicate detection —
`handle_list_tools` is plain list concatenation with no failure path,
so two categories declaring the same name yield TWO ToolSpecs with that
name in the merged discovery list (not "exactly one", and no fail-fast
at startup or registration time). -/
theorem C2_counterexample :
    ((handleListToolsOf [[⟨"dup", "first category"⟩], [⟨"dup", "second category"⟩]]).filter
      (fun t => t.name == "dup")).length = 2 := by
  decide

/-- C2 (amended): the merged discovery list of the five actual
categories does contain exactly one ToolSpec for every name any
provider declares — but only because the concrete catalogs happen to be
pairwise disjoint (their 25 names are mutually distinct); the merge
itself is plain concatenation with no duplicate check. -/
theorem C2_unique_names_in_actual_catalog :
    (handleListTools.map ToolSpec.name).Nodup ∧
    (allToolNames.all
      (fun n => (handleListTools.filter (fun t => t.name == n)).length == 1)) = true := by
  constructor
  · decide
  · decide

/-! ## C1 -/

/-- C1 counterexample: `execute` calls `_ensure_authenticated()` before
(and outside) every `try` block, so when the authentication collaborator
fails — here with the `ValueError` that `initialize()` raises when no
credential source is configured — the exception escapes the Executor
instead of becoming a ResultEnvelope; only the Dispatcher's outer catch
stops it, making that catch a live error path rather than a last-resort
safety net. -/
theorem C1_counterexample_auth_failure_escapes :
    MessageTools.execute
      ⟨Except.error (Exc.valueError ("No valid authentication method found. "
          ++ "Please provide either service account JSON or OAuth2 credentials.")),
       Except.error (Exc.runtimeError "Authentication not initialized. Call initialize() first.")⟩
      none "send_message" [("text", Json.str "hi")]
    = Except.error (Exc.valueError ("No valid authentication method found. "
        ++ "Please provide either service account JSON or OAuth2 credentials.")) := rfl

/-- C1 (amended): for every tool name the message Executor owns and
every argument bag, when `ensure_authenticated` succeeds the Executor
returns exactly one ResultEnvelope — a dict, the success or error
envelope — whatever the service environment does (including every API
failure); it does not raise.  (Authentication failures and unowned
names, by contrast, do raise — see the counterexample.) -/
theorem C1_execute_returns_one_envelope (svcR : Except Exc Service)
    (ds : Option String) (args : Args) (name : String)
    (h : name ∈ MessageTools.get_tool_names) :
    ∃ kvs trace, MessageTools.execute ⟨Except.ok (), svcR⟩ ds name args
      = Except.ok (Json.obj kvs, trace) := by
  have auth : AuthState := ⟨Except.ok (), svcR⟩
  simp only [MessageTools.get_tool_names, List.mem_cons, List.mem_singleton,
    List.not_mem_nil, or_false] at h
  rcases h with rfl | rfl | rfl | rfl | rfl
  · obtain ⟨kvs, hk⟩ := Json.isObjB_exists (send_message_isObj ⟨Except.ok (), svcR⟩ ds args)
    exact ⟨kvs, _, congrArg Except.ok (pair_fst_obj hk)⟩
  · obtain ⟨kvs, hk⟩ := Json.isObjB_exists (list_messages_isObj ⟨Except.ok (), svcR⟩ ds args)
    exact ⟨kvs, _, congrArg Except.ok (pair_fst_obj hk)⟩
  · obtain ⟨kvs, hk⟩ := Json.isObjB_exists (get_message_isObj ⟨Except.ok (), svcR⟩ args)
    exact ⟨kvs, _, congrArg Except.ok (pair_fst_obj hk)⟩
  · obtain ⟨kvs, hk⟩ := Json.isObjB_exists (update_message_isObj ⟨Except.ok (), svcR⟩ args)
    exact ⟨kvs, _, congrArg Except.ok (pair_fst_obj hk)⟩
  · obtain ⟨kvs, hk⟩ := Json.isObjB_exists (delete_message_isObj ⟨Except.ok (), svcR⟩ args)
    exact ⟨kvs, _, congrArg Except.ok (pair_fst_obj hk)⟩

/-- C1 witness: the envelope-not-exception theorem applied at a
concrete invocation. -/
theorem C1_witness :
    "send_message" ∈ MessageTools.get_tool_names ∧
    ∃ kvs trace, MessageTools.execute ⟨Except.ok (), Except.ok svcEmpty⟩ none
      "send_message" [("text", Json.str "hi")] = Except.ok (Json.obj kvs, trace) :=
  ⟨by decide,
   C1_execute_returns_one_envelope (Except.ok svcEmpty) none
     [("text", Json.str "hi")] "send_message" (by decide)⟩

/-! ## C5 -/

theorem runMethod_snd (op : String) (body : PyM Json) : (runMethod op body).2 = body.2 := by
  obtain ⟨r, w⟩ := body
  rcases r <;> rfl

/-- C5: resolving the `space` argument.  When the argument is absent and
no default space is configured, the shared `_validate_space` helper
raises the missing-space `ValueError` (conjunct 1), `send_message`
converts it into an error envelope having made NO API call — the trace
is empty (conjunct 2); when the argument is absent but a (truthy)
default space is configured, the default space is the parent of the one
API call made (conjunct 3). -/
theorem C5_missing_space_fails_before_network :
    (validateSpace none none = PyM.throw noSpaceExc) ∧
    (∀ (e : Except Exc Unit) (svc : Service) (args : Args),
      argGet? args "space" = none →
      MessageTools.send_message ⟨e, Except.ok svc⟩ none args
        = (Json.obj [("error", Json.str "No space specified and no default space configured")],
           [])) ∧
    (∀ (e : Except Exc Unit) (svc : Service) (args : Args) (d : String),
      argGet? args "space" = none → d.data.isEmpty = false →
      (MessageTools.send_message ⟨e, Except.ok svc⟩ (some d) args).2
        = [Call.messagesCreate (Json.str d) (Json.obj (buildMessageBody args))]) := by
  refine ⟨rfl, ?_, ?_⟩
  · intro e svc args hsp
    unfold MessageTools.send_message
    rw [hsp]
    rfl
  · intro e svc args d hsp hd
    unfold MessageTools.send_message
    rw [hsp, runMethod_snd]
    simp only [snd_bind, fst_bind, fst_pure, snd_pure, PyM.ofExcept, AuthState.getService,
      validateSpace, hd, Bool.not_false, if_true, Service.callMessagesCreate, PyM.throw,
      Json.getN, Json.getD]
    repeat' split
    all_goals rfl

/-- C5 witness: the missing-space and default-space behaviour at a
concrete invocation. -/
theorem C5_witness :
    MessageTools.send_message ⟨Except.ok (), Except.ok svcEmpty⟩ none [("text", Json.str "hi")]
      = (Json.obj [("error", Json.str "No space specified and no default space configured")], [])
    ∧ (MessageTools.send_message ⟨Except.ok (), Except.ok svcEmpty⟩ (some "spaces/DEF")
        [("text", Json.str "hi")]).2
      = [Call.messagesCreate (Json.str "spaces/DEF")
          (Json.obj (buildMessageBody [("text", Json.str "hi")]))] :=
  ⟨C5_missing_space_fails_before_network.2.1 (Except.ok ()) svcEmpty [("text", Json.str "hi")] rfl,
   C5_missing_space_fails_before_network.2.2 (Except.ok ()) svcEmpty [("text", Json.str "hi")]
     "spaces/DEF" rfl rfl⟩

/-! ## C6 -/

/-- C6 counterexample: the limit is NOT clamped to the range 1–100 —
the code only caps it above via `min(limit, 100)`.  With `limit = 0`
(outside 1–100) `list_messages` requests `pageSize` 0 from the backing
API, and still answers with a success envelope (so the no-rejection
half of the claim holds while the clamp-to-1 half fails). -/
theorem C6_counterexample_zero_limit_not_clamped :
    (MessageTools.list_messages ⟨Except.ok (), Except.ok svcEmpty⟩ none
        [("space", Json.str "spaces/x"), ("limit", Json.num 0)]).2
      = [Call.messagesList (Json.str "spaces/x") (Json.num 0)
          (Json.str "create_time desc") none]
    ∧ (MessageTools.list_messages ⟨Except.ok (), Except.ok svcEmpty⟩ none
        [("space", Json.str "spaces/x"), ("limit", Json.num 0)]).1
      = Json.obj [("success", Json.bool true), ("messages", Json.arr []),
                  ("count", Json.num 0), ("space", Json.str "spaces/x")] := by
  constructor
  · rfl
  · rfl

/-- C6 (amended): `list_messages` caps the limit above at 100 — the
page size it sends to the API is exactly `min(limit, 100)`, never more
than 100 — and an out-of-range limit is silently passed through below 1
rather than rejected (the call still happens, producing whatever
envelope the service answers). -/
theorem C6_limit_capped_at_100 (e : Except Exc Unit) (svc : Service) (args : Args)
    (sp : Json) (n : Int)
    (hsp : argGet? args "space" = some sp) (ht : sp.truthy = true)
    (hl : argGet? args "limit" = some (Json.num n)) :
    (MessageTools.list_messages ⟨e, Except.ok svc⟩ none args).2
      = [Call.messagesList sp (Json.num (min n 100))
          (argGetD args "order_by" (Json.str "create_time desc")) none]
    ∧ min n 100 ≤ 100 := by
  have hsp2 : kvLookup args "space" = some sp := hsp
  have hl2 : kvLookup args "limit" = some (Json.num n) := hl
  constructor
  · unfold MessageTools.list_messages
    rw [runMethod_snd]
    simp only [snd_bind, fst_bind, fst_pure, snd_pure, PyM.ofExcept, AuthState.getService,
      validateSpace, argGet?, argGetD, hsp2, ht, if_true, hl2, Option.getD_some, pyMinNum,
      Service.callMessagesList, PyM.throw, Json.getD, Json.pyLen]
    repeat' split
    all_goals rfl
  · exact min_le_right n 100

/-- C6 witness: `list_messages` with limit 500 requests page size 100. -/
theorem C6_witness :
    (MessageTools.list_messages ⟨Except.ok (), Except.ok svcEmpty⟩ none
        [("space", Json.str "spaces/x"), ("limit", Json.num 500)]).2
      = [Call.messagesList (Json.str "spaces/x") (Json.num (min 500 100))
          (argGetD [("space", Json.str "spaces/x"), ("limit", Json.num 500)]
            "order_by" (Json.str "create_time desc")) none]
    ∧ min (500 : Int) 100 ≤ 100 :=
  C6_limit_capped_at_100 (Except.ok ()) svcEmpty
    [("space", Json.str "spaces/x"), ("limit", Json.num 500)]
    (Json.str "spaces/x") 500 rfl rfl rfl

/-! ## C8 -/

theorem charsStart_self : ∀ xs : List Char, charsStart xs xs = true := by
  intro xs
  induction xs with
  | nil => rfl
  | cons a as ih => simp [charsStart, ih]

theorem charsStart_append (xs ys : List Char) : charsStart (xs ++ ys) xs = true := by
  induction xs with
  | nil => cases ys <;> rfl
  | cons a as ih => simp [charsStart, ih]

theorem charsContain_of_start {hay needle : List Char}
    (h : charsStart hay needle = true) : charsContain hay needle = true := by
  cases hay with
  | nil =>
    cases needle with
    | nil => rfl
    | cons b bs => simp [charsStart] at h
  | cons c cs => simp [charsContain, h]

theorem charsContain_append_left (pre : List Char) {rest needle : List Char}
    (h : charsContain rest needle = true) : charsContain (pre ++ rest) needle = true := by
  induction pre with
  | nil => simpa using h
  | cons c cs ih => simp [charsContain, ih]

theorem contains_append_false {l1 l2 : List String} {a : String}
    (h : (l1 ++ l2).contains a = false) : l1.contains a = false ∧ l2.contains a = false := by
  constructor
  · cases hc : l1.contains a
    · rfl
    · rw [List.contains_eq_any_beq] at hc h
      simp [List.any_append, hc] at h
  · cases hc : l2.contains a
    · rfl
    · rw [List.contains_eq_any_beq] at hc h
      simp [List.any_append, hc] at h

/-- Decomposition of the unknown-tool error text used to exhibit its
substrings. -/
theorem unknown_tool_text_data (name : String) :
    ("Error: " ++ ("Unknown tool: " ++ name)).data
      = "Error: ".data ++ ("Unknown tool".data ++ (": ".data ++ name.data)) := by
  rw [String.data_append, String.data_append]
  have h : ("Unknown tool: ").data = "Unknown tool".data ++ ": ".data := rfl
  rw [h, List.append_assoc]

/-- C8: tool-name dispatch.  (1) A name no provider owns makes
`handle_call_tool` return a single error content block — not a raised
failure — whose text contains the substring "Unknown tool" and the
literal tool name.  (2) For every owned name (when the authentication
collaborator succeeds), the owning Executor's dict envelope is
converted into a single text block whose text is the JSON encoding of
that (non-string) payload. -/
theorem C8_call_tool_dispatch :
    (∀ (auth : AuthState) (net : Service) (ds : Option String) (nowUs nowSec : Int)
       (args : Args) (name : String),
       allToolNames.contains name = false →
       handleCallTool auth net ds nowUs nowSec name args
           = [⟨"Error: " ++ ("Unknown tool: " ++ name)⟩]
         ∧ charsContain ("Error: " ++ ("Unknown tool: " ++ name)).data "Unknown tool".data = true
         ∧ charsContain ("Error: " ++ ("Unknown tool: " ++ name)).data name.data = true) ∧
    (∀ (svcR : Except Exc Service) (net : Service) (ds : Option String) (nowUs nowSec : Int)
       (args : Args) (name : String),
       allToolNames.contains name = true →
       ∃ kvs, handleCallTool ⟨Except.ok (), svcR⟩ net ds nowUs nowSec name args
         = [⟨jsonDumps (.obj kvs)⟩]) := by
  constructor
  · intro auth net ds nowUs nowSec args name h
    simp only [allToolNames] at h
    obtain ⟨h4, hw⟩ := contains_append_false h
    obtain ⟨h3, hse⟩ := contains_append_false h4
    obtain ⟨h2, hmem⟩ := contains_append_false h3
    obtain ⟨hmsg, hs⟩ := contains_append_false h2
    refine ⟨?_, ?_, ?_⟩
    · unfold handleCallTool routeTool
      rw [hmsg, hs, hmem, hse, hw]
      rfl
    · rw [unknown_tool_text_data]
      exact charsContain_append_left _
        (charsContain_of_start (charsStart_append "Unknown tool".data _))
    · have hdata2 : ("Error: " ++ ("Unknown tool: " ++ name)).data
          = ("Error: ".data ++ "Unknown tool: ".data) ++ name.data := by
        rw [String.data_append, String.data_append, List.append_assoc]
      rw [hdata2]
      exact charsContain_append_left _
        (charsContain_of_start (charsStart_self name.data))
  · intro svcR net ds nowUs nowSec args name h
    have hm : name ∈ allToolNames := by
      rw [List.contains_eq_any_beq] at h
      simp only [List.any_eq_true, beq_iff_eq] at h
      obtain ⟨x, hx, hEq⟩ := h
      subst hEq
      exact hx
    simp only [allToolNames, MessageTools.get_tool_names, SpaceTools.get_tool_names,
      MemberTools.get_tool_names, SearchTools.get_tool_names, WebhookTools.get_tool_names,
      List.mem_append, List.mem_cons, List.not_mem_nil, or_false] at hm
    rcases hm with ((((rfl | rfl | rfl | rfl | rfl) |
        (rfl | rfl | rfl | rfl | rfl)) |
        (rfl | rfl | rfl | rfl | rfl | rfl)) |
        (rfl | rfl | rfl | rfl)) |
        (rfl | rfl | rfl | rfl | rfl)
    · obtain ⟨kvs, hk⟩ := Json.isObjB_exists (send_message_isObj ⟨Except.ok (), svcR⟩ ds args)
      refine ⟨kvs, ?_⟩
      unfold handleCallTool
      rw [show routeTool ⟨Except.ok (), svcR⟩ net ds nowUs nowSec "send_message" args
          = Except.ok ((MessageTools.send_message ⟨Except.ok (), svcR⟩ ds args).1) from rfl, hk]
    · obtain ⟨kvs, hk⟩ := Json.isObjB_exists (list_messages_isObj ⟨Except.ok (), svcR⟩ ds args)
      refine ⟨kvs, ?_⟩
      unfold handleCallTool
      rw [show routeTool ⟨Except.ok (), svcR⟩ net ds nowUs nowSec "list_messages" args
          = Except.ok ((MessageTools.list_messages ⟨Except.ok (), svcR⟩ ds args).1) from rfl, hk]
    · obtain ⟨kvs, hk⟩ := Json.isObjB_exists (get_message_isObj ⟨Except.ok (), svcR⟩ args)
      refine ⟨kvs, ?_⟩
      unfold handleCallTool
      rw [show routeTool ⟨Except.ok (), svcR⟩ net ds nowUs nowSec "get_message" args
          = Except.ok ((MessageTools.get_message ⟨Except.ok (), svcR⟩ args).1) from rfl, hk]
    · obtain ⟨kvs, hk⟩ := Json.isObjB_exists (update_message_isObj ⟨Except.ok (), svcR⟩ args)
      refine ⟨kvs, ?_⟩
      unfold handleCallTool
      rw [show routeTool ⟨Except.ok (), svcR⟩ net ds nowUs nowSec "update_message" args
          = Except.ok ((MessageTools.update_message ⟨Except.ok (), svcR⟩ args).1) from rfl, hk]
    · obtain ⟨kvs, hk⟩ := Json.isObjB_exists (delete_message_isObj ⟨Except.ok (), svcR⟩ args)
      refine ⟨kvs, ?_⟩
      unfold handleCallTool
      rw [show routeTool ⟨Except.ok (), svcR⟩ net ds nowUs nowSec "delete_message" args
          = Except.ok ((MessageTools.delete_message ⟨Except.ok (), svcR⟩ args).1) from rfl, hk]
    · obtain ⟨kvs, hk⟩ := Json.isObjB_exists (list_spaces_isObj ⟨Except.ok (), svcR⟩ args)
      refine ⟨kvs, ?_⟩
      unfold handleCallTool
      rw [show routeTool ⟨Except.ok (), svcR⟩ net ds nowUs nowSec "list_spaces" args
          = Except.ok ((SpaceTools.list_spaces ⟨Except.ok (), svcR⟩ args).1) from rfl, hk]
    · obtain ⟨kvs, hk⟩ := Json.isObjB_exists (get_space_isObj ⟨Except.ok (), svcR⟩ args)
      refine ⟨kvs, ?_⟩
      unfold handleCallTool
      rw [show routeTool ⟨Except.ok (), svcR⟩ net ds nowUs nowSec "get_space" args
          = Except.ok ((SpaceTools.get_space ⟨Except.ok (), svcR⟩ args).1) from rfl, hk]
    · obtain ⟨kvs, hk⟩ := Json.isObjB_exists (create_space_isObj ⟨Except.ok (), svcR⟩ args)
      refine ⟨kvs, ?_⟩
      unfold handleCallTool
      rw [show routeTool ⟨Except.ok (), svcR⟩ net ds nowUs nowSec "create_space" args
          = Except.ok ((SpaceTools.create_space ⟨Except.ok (), svcR⟩ args).1) from rfl, hk]
    · obtain ⟨kvs, hk⟩ := Json.isObjB_exists (update_space_isObj ⟨Except.ok (), svcR⟩ args)
      refine ⟨kvs, ?_⟩
      unfold handleCallTool
      rw [show routeTool ⟨Except.ok (), svcR⟩ net ds nowUs nowSec "update_space" args
          = Except.ok ((SpaceTools.update_space ⟨Except.ok (), svcR⟩ args).1) from rfl, hk]
    · obtain ⟨kvs, hk⟩ := Json.isObjB_exists (delete_space_isObj ⟨Except.ok (), svcR⟩ args)
      refine ⟨kvs, ?_⟩
      unfold handleCallTool
      rw [show routeTool ⟨Except.ok (), svcR⟩ net ds nowUs nowSec "delete_space" args
          = Except.ok ((SpaceTools.delete_space ⟨Except.ok (), svcR⟩ args).1) from rfl, hk]
    · obtain ⟨kvs, hk⟩ := Json.isObjB_exists (list_members_isObj ⟨Except.ok (), svcR⟩ none args)
      refine ⟨kvs, ?_⟩
      unfold handleCallTool
      rw [show routeTool ⟨Except.ok (), svcR⟩ net ds nowUs nowSec "list_members" args
          = Except.ok ((MemberTools.list_members ⟨Except.ok (), svcR⟩ none args).1) from rfl, hk]
    · obtain ⟨kvs, hk⟩ := Json.isObjB_exists (get_member_isObj ⟨Except.ok (), svcR⟩ args)
      refine ⟨kvs, ?_⟩
      unfold handleCallTool
      rw [show routeTool ⟨Except.ok (), svcR⟩ net ds nowUs nowSec "get_member" args
          = Except.ok ((MemberTools.get_member ⟨Except.ok (), svcR⟩ args).1) from rfl, hk]
    · obtain ⟨kvs, hk⟩ := Json.isObjB_exists (create_membership_isObj ⟨Except.ok (), svcR⟩ none args)
      refine ⟨kvs, ?_⟩
      unfold handleCallTool
      rw [show routeTool ⟨Except.ok (), svcR⟩ net ds nowUs nowSec "create_membership" args
          = Except.ok ((MemberTools.create_membership ⟨Except.ok (), svcR⟩ none args).1) from rfl, hk]
    · obtain ⟨kvs, hk⟩ := Json.isObjB_exists (update_membership_isObj ⟨Except.ok (), svcR⟩ args)
      refine ⟨kvs, ?_⟩
      unfold handleCallTool
      rw [show routeTool ⟨Except.ok (), svcR⟩ net ds nowUs nowSec "update_membership" args
          = Except.ok ((MemberTools.update_membership ⟨Except.ok (), svcR⟩ args).1) from rfl, hk]
    · obtain ⟨kvs, hk⟩ := Json.isObjB_exists (delete_membership_isObj ⟨Except.ok (), svcR⟩ args)
      refine ⟨kvs, ?_⟩
      unfold handleCallTool
      rw [show routeTool ⟨Except.ok (), svcR⟩ net ds nowUs nowSec "delete_membership" args
          = Except.ok ((MemberTools.delete_membership ⟨Except.ok (), svcR⟩ args).1) from rfl, hk]
    · obtain ⟨kvs, hk⟩ := Json.isObjB_exists (find_direct_message_isObj ⟨Except.ok (), svcR⟩ args)
      refine ⟨kvs, ?_⟩
      unfold handleCallTool
      rw [show routeTool ⟨Except.ok (), svcR⟩ net ds nowUs nowSec "find_direct_message" args
          = Except.ok ((MemberTools.find_direct_message ⟨Except.ok (), svcR⟩ args).1) from rfl, hk]
    · obtain ⟨kvs, hk⟩ := Json.isObjB_exists (search_messages_isObj ⟨Except.ok (), svcR⟩ args)
      refine ⟨kvs, ?_⟩
      unfold handleCallTool
      rw [show routeTool ⟨Except.ok (), svcR⟩ net ds nowUs nowSec "search_messages" args
          = Except.ok ((SearchTools.search_messages ⟨Except.ok (), svcR⟩ args).1) from rfl, hk]
    · obtain ⟨kvs, hk⟩ := Json.isObjB_exists (search_spaces_isObj ⟨Except.ok (), svcR⟩ args)
      refine ⟨kvs, ?_⟩
      unfold handleCallTool
      rw [show routeTool ⟨Except.ok (), svcR⟩ net ds nowUs nowSec "search_spaces" args
          = Except.ok ((SearchTools.search_spaces ⟨Except.ok (), svcR⟩ args).1) from rfl, hk]
    · obtain ⟨kvs, hk⟩ := Json.isObjB_exists (search_members_isObj ⟨Except.ok (), svcR⟩ args)
      refine ⟨kvs, ?_⟩
      unfold handleCallTool
      rw [show routeTool ⟨Except.ok (), svcR⟩ net ds nowUs nowSec "search_members" args
          = Except.ok ((SearchTools.search_members ⟨Except.ok (), svcR⟩ args).1) from rfl, hk]
    · obtain ⟨kvs, hk⟩ := Json.isObjB_exists (get_recent_activity_isObj ⟨Except.ok (), svcR⟩ nowUs args)
      refine ⟨kvs, ?_⟩
      unfold handleCallTool
      rw [show routeTool ⟨Except.ok (), svcR⟩ net ds nowUs nowSec "get_recent_activity" args
          = Except.ok ((SearchTools.get_recent_activity ⟨Except.ok (), svcR⟩ nowUs args).1) from rfl, hk]
    · obtain ⟨kvs, hk⟩ := Json.isObjB_exists (send_webhook_message_isObj net args)
      refine ⟨kvs, ?_⟩
      unfold handleCallTool
      rw [show routeTool ⟨Except.ok (), svcR⟩ net ds nowUs nowSec "send_webhook_message" args
          = Except.ok ((WebhookTools.send_webhook_message net args).1) from rfl, hk]
    · obtain ⟨kvs, hk⟩ := Json.isObjB_exists (create_card_message_isObj args)
      refine ⟨kvs, ?_⟩
      unfold handleCallTool
      rw [show routeTool ⟨Except.ok (), svcR⟩ net ds nowUs nowSec "create_card_message" args
          = Except.ok ((WebhookTools.create_card_message args).1) from rfl, hk]
    · obtain ⟨kvs, hk⟩ := Json.isObjB_exists (parse_webhook_event_isObj args)
      refine ⟨kvs, ?_⟩
      unfold handleCallTool
      rw [show routeTool ⟨Except.ok (), svcR⟩ net ds nowUs nowSec "parse_webhook_event" args
          = Except.ok ((WebhookTools.parse_webhook_event args).1) from rfl, hk]
    · obtain ⟨kvs, hk⟩ := Json.isObjB_exists (validate_webhook_signature_isObj nowSec args)
      refine ⟨kvs, ?_⟩
      unfold handleCallTool
      rw [show routeTool ⟨Except.ok (), svcR⟩ net ds nowUs nowSec "validate_webhook_signature" args
          = Except.ok ((WebhookTools.validate_webhook_signature nowSec args).1) from rfl, hk]
    · obtain ⟨kvs, hk⟩ := Json.isObjB_exists (create_interactive_card_isObj args)
      refine ⟨kvs, ?_⟩
      unfold handleCallTool
      rw [show routeTool ⟨Except.ok (), svcR⟩ net ds nowUs nowSec "create_interactive_card" args
          = Except.ok ((WebhookTools.create_interactive_card args).1) from rfl, hk]

/-- C8 witness: the dispatch theorem applied at
`callTool("nonexistent_tool", {})` and at an owned name. -/
theorem C8_witness :
    (handleCallTool ⟨Except.ok (), Except.ok svcEmpty⟩ svcEmpty none 0 0 "nonexistent_tool" []
        = [⟨"Error: " ++ ("Unknown tool: " ++ "nonexistent_tool")⟩]
      ∧ charsContain ("Error: " ++ ("Unknown tool: " ++ "nonexistent_tool")).data
          "Unknown tool".data = true
      ∧ charsContain ("Error: " ++ ("Unknown tool: " ++ "nonexistent_tool")).data
          "nonexistent_tool".data = true) ∧
    (∃ kvs, handleCallTool ⟨Except.ok (), Except.ok svcEmpty⟩ svcEmpty none 0 0
        "send_message" [] = [⟨jsonDumps (.obj kvs)⟩]) :=
  ⟨C8_call_tool_dispatch.1 ⟨Except.ok (), Except.ok svcEmpty⟩ svcEmpty none 0 0 []
      "nonexistent_tool" (by decide),
   C8_call_tool_dispatch.2 (Except.ok svcEmpty) svcEmpty none 0 0 [] "send_message" (by decide)⟩

/-! ## C4 -/

theorem fst_catchHttp (b h : PyM α) :
    (PyM.catchHttp b h).1 = match b.1 with
      | Except.ok a => Except.ok a
      | Except.error e => if e.isHttp then h.1 else Except.error e := by
  obtain ⟨r, w⟩ := b
  rcases r with e | v
  · unfold PyM.catchHttp
    cases hi : e.isHttp <;> simp [hi]
  · rfl

/-- The two direct-message spaces of the C4 scenario: listing members
of space A fails with HTTP 403, space B answers normally and does
contain the sought user. -/
def c4SpaceA : Json := .obj [("name", .str "spaces/A")]

def c4SpaceB : Json := .obj [("name", .str "spaces/B")]

def c4MemberB : Json := .obj [("member", .obj [("name", .str "users/u@x.com")])]

/-- A remote system where every per-space call on space A answers
HTTP 403 while space B answers normally. -/
def svcC4 : Service where
  messagesCreate := fun _ _ => .ok (.obj [])
  messagesList := fun parent _ _ _ =>
    if Json.beq parent (.str "spaces/A") then .error (.http 403 "forbidden")
    else .ok (.obj [("messages", .arr [])])
  messagesGet := fun _ => .ok (.obj [])
  messagesPatch := fun _ _ _ => .ok (.obj [])
  messagesDelete := fun _ => .ok (.obj [])
  spacesList := fun _ _ => .ok (.obj [("spaces", .arr [c4SpaceA, c4SpaceB])])
  spacesGet := fun _ => .ok (.obj [])
  spacesCreate := fun _ => .ok (.obj [])
  spacesPatch := fun _ _ _ => .ok (.obj [])
  spacesDelete := fun _ => .ok (.obj [])
  membersList := fun parent _ _ _ =>
    if Json.beq parent (.str "spaces/A") then .error (.http 403 "forbidden")
    else .ok (.obj [("memberships", .arr [c4MemberB])])
  membersGet := fun _ => .ok (.obj [])
  membersCreate := fun _ _ => .ok (.obj [])
  membersPatch := fun _ _ _ => .ok (.obj [])
  membersDelete := fun _ => .ok (.obj [])
  httpPost := fun _ _ => .ok (200, .obj [], "")

/-- C4 counterexample: the direct-message lookup does NOT skip a space
whose per-space membership call answers with an authorization failure —
it aborts the whole operation with the permission-denied error
envelope, even though the very next space contains the sought user
(conjunct 2 shows the loop would have succeeded on space B alone). -/
theorem C4_counterexample_find_dm_aborts :
    (MemberTools.find_direct_message ⟨Except.ok (), Except.ok svcC4⟩
        [("user", Json.str "u@x.com")]).1
      = Json.obj [("error", Json.str "Permission denied. Check your authentication and API permissions."),
                  ("status", Json.num 403)]
    ∧ (MemberTools.findDMLoop svcC4 (Json.str "users/u@x.com") (Json.str "u@x.com")
        [c4SpaceB]).1
      = Except.ok (Json.obj [("success", Json.bool true), ("space", c4SpaceB),
          ("space_id", Json.str "spaces/B"), ("existing", Json.bool true)]) := by
  constructor
  · rfl
  · rfl

/-- C4 (amended): the multi-space loops of text search and recent
activity skip a space whose per-space fetch raises an HTTP failure
(removing such a space from the listing leaves the loop's outcome
unchanged — conjuncts 1 and 2) — but the direct-message lookup does
not: an HTTP failure on any space's membership call aborts the whole
loop with that failure (conjunct 3). -/
theorem C4_skip_semantics :
    (∀ (svc : Service) (bad : Json) (e : Exc),
      (SearchTools.searchFetchSpace svc bad).1 = Except.error e → e.isHttp = true →
      ∀ xs ys, (SearchTools.searchLoop svc (xs ++ bad :: ys)).1
        = (SearchTools.searchLoop svc (xs ++ ys)).1) ∧
    (∀ (svc : Service) (thr : Int) (limit atypes bad nm : Json) (e : Exc),
      Json.item bad "name" = (pure nm : PyM Json) →
      (SearchTools.recentFetchSpace svc thr limit atypes nm bad).1 = Except.error e →
      e.isHttp = true →
      ∀ xs ys, (SearchTools.recentLoop svc thr limit atypes (xs ++ bad :: ys)).1
        = (SearchTools.recentLoop svc thr limit atypes (xs ++ ys)).1) ∧
    (∀ (svc : Service) (userId user bad nm : Json) (rest : List Json) (st : Int) (m : String),
      Json.item bad "name" = (pure nm : PyM Json) →
      svc.membersList nm none none none = Except.error (Exc.http st m) →
      (MemberTools.findDMLoop svc userId user (bad :: rest)).1
        = Except.error (Exc.http st m)) := by
  refine ⟨?_, ?_, ?_⟩
  · intro svc bad e hfetch hhttp xs
    induction xs with
    | nil =>
      intro ys
      show (SearchTools.searchLoop svc (bad :: ys)).1 = _
      simp only [SearchTools.searchLoop, fst_bind, fst_catchHttp, hfetch, hhttp, if_true,
        fst_pure, List.nil_append]
      cases hr : (SearchTools.searchLoop svc ys).1 with
      | ok more => simp [hr]
      | error e2 => simp [hr]
    | cons x xs ih =>
      intro ys
      show (SearchTools.searchLoop svc (x :: (xs ++ bad :: ys))).1
        = (SearchTools.searchLoop svc (x :: (xs ++ ys))).1
      simp only [SearchTools.searchLoop, fst_bind]
      rw [ih ys]
  · intro svc thr limit atypes bad nm e hitem hfetch hhttp xs
    induction xs with
    | nil =>
      intro ys
      show (SearchTools.recentLoop svc thr limit atypes (bad :: ys)).1 = _
      simp only [SearchTools.recentLoop, fst_bind, hitem, fst_pure, fst_catchHttp,
        hfetch, hhttp, if_true, List.nil_append]
      cases hr : (SearchTools.recentLoop svc thr limit atypes ys).1 with
      | ok more => simp [hr]
      | error e2 => simp [hr]
    | cons x xs ih =>
      intro ys
      show (SearchTools.recentLoop svc thr limit atypes (x :: (xs ++ bad :: ys))).1
        = (SearchTools.recentLoop svc thr limit atypes (x :: (xs ++ ys))).1
      simp only [SearchTools.recentLoop, fst_bind]
      rw [ih ys]
  · intro svc userId user bad nm rest st m hitem hcall
    simp only [MemberTools.findDMLoop, fst_bind, hitem, fst_pure,
      Service.callMembersList, hcall]

/-- C4 witness: the skip/abort semantics at the concrete two-space
scenario (space A failing with 403). -/
theorem C4_witness :
    (SearchTools.searchLoop svcC4 ([] ++ c4SpaceA :: [c4SpaceB])).1
      = (SearchTools.searchLoop svcC4 ([] ++ [c4SpaceB])).1
    ∧ (SearchTools.recentLoop svcC4 0 (Json.num 50) (Json.arr [Json.str "MESSAGE"])
        ([] ++ c4SpaceA :: [c4SpaceB])).1
      = (SearchTools.recentLoop svcC4 0 (Json.num 50) (Json.arr [Json.str "MESSAGE"])
        ([] ++ [c4SpaceB])).1
    ∧ (MemberTools.findDMLoop svcC4 (Json.str "users/u@x.com") (Json.str "u@x.com")
        (c4SpaceA :: [c4SpaceB])).1
      = Except.error (Exc.http 403 "forbidden") :=
  ⟨C4_skip_semantics.1 svcC4 c4SpaceA (Exc.http 403 "forbidden") rfl rfl [] [c4SpaceB],
   C4_skip_semantics.2.1 svcC4 0 (Json.num 50) (Json.arr [Json.str "MESSAGE"])
     c4SpaceA (Json.str "spaces/A") (Exc.http 403 "forbidden") rfl rfl rfl [] [c4SpaceB],
   C4_skip_semantics.2.2 svcC4 (Json.str "users/u@x.com") (Json.str "u@x.com")
     c4SpaceA (Json.str "spaces/A") [c4SpaceB] 403 "forbidden" rfl rfl⟩

/-! ## C9 -/

theorem pure_bind_pym (a : α) (f : α → PyM β) : (pure a : PyM α) >>= f = f a := rfl

theorem runMethod_fst (op : String) (body : PyM Json) :
    (runMethod op body).1 = match body.1 with
      | Except.ok v => v
      | Except.error e =>
        if e.isHttp then handleApiError e op
        else Json.obj [("error", Json.str e.msgStr)] := by
  obtain ⟨r, w⟩ := body
  rcases r <;> rfl

/-- Total dict lookup (`None` off misses and non-dicts) — the spec-side
reading of the chained `.get` calls, valid on the well-formed member
records the loop hypothesis demands. -/
def jLookupTotal (j : Json) (k : String) : Json :=
  match j with
  | .obj kvs => (kvLookup kvs k).getD .null
  | _ => .null

/-- Spec-side membership test of the direct-message lookup:
`m.get("member", {}).get("name") == user_id`. -/
def dmMatchB (userId : Json) (m : Json) : Bool :=
  Json.beq (jLookupTotal (jLookupTotal m "member") "name") userId

/-- Well-formedness of one membership record: a dict whose `member`
field, when present, is itself a dict (what the Chat API returns; the
embedded comprehension raises on anything else). -/
def dmMemberOkB (m : Json) : Bool :=
  match m with
  | .obj kvs =>
    match kvLookup kvs "member" with
    | some (.obj _) => true
    | some _ => false
    | none => true
  | _ => false

/-- The membership comprehension computes exactly the spec-side filter
on well-formed member records. -/
theorem filterUserMembers_spec (userId : Json) :
    ∀ mems : List Json, (∀ m ∈ mems, dmMemberOkB m = true) →
    MemberTools.filterUserMembers userId mems
      = (pure (mems.filter (dmMatchB userId)) : PyM (List Json)) := by
  intro mems
  induction mems with
  | nil => intro _; rfl
  | cons m rest ih =>
    intro h
    have hm := h m (List.mem_cons_self m rest)
    have hrest := fun m2 hm2 => h m2 (List.mem_cons_of_mem _ hm2)
    cases m with
    | obj kvs =>
      rw [List.filter_cons]
      unfold MemberTools.filterUserMembers
      simp only [Json.getD, Json.getN, pure_bind_pym, ih hrest]
      cases hmem : kvLookup kvs "member" with
      | none =>
        simp [hmem, dmMatchB, jLookupTotal, pure_bind_pym, kvLookup]
      | some v =>
        simp only [dmMemberOkB, hmem] at hm
        cases v with
        | obj kvs2 => simp [hmem, dmMatchB, jLookupTotal, Json.getD, pure_bind_pym]
        | null => cases hm
        | bool b => cases hm
        | num n => cases hm
        | str s => cases hm
        | arr xs => cases hm
    | null => simp [dmMemberOkB] at hm
    | bool b => simp [dmMemberOkB] at hm
    | num n => simp [dmMemberOkB] at hm
    | str s => simp [dmMemberOkB] at hm
    | arr xs => simp [dmMemberOkB] at hm

theorem any_eq_not_isEmpty_filter (p : α → Bool) (l : List α) :
    l.any p = !(l.filter p).isEmpty := by
  induction l with
  | nil => rfl
  | cons a t ih => cases hp : p a <;> simp [List.filter_cons, hp, ih]

/-- Spec-side reading of the user-identifier normalization: emails and
bare ids get a `users/` stem, `users/...` passes through. -/
def pyNormalizeUser (u : String) : String :=
  if charsContain u.data "@".data then "users/" ++ u
  else if charsStart u.data "users/".data then u
  else "users/" ++ u

theorem formatUserId_str (u : String) :
    formatUserId (Json.str u) = (pure (Json.str (pyNormalizeUser u)) : PyM Json) := by
  unfold formatUserId pyNormalizeUser pyInJson
  simp only [pure_bind_pym, Json.pyStr]
  cases hc : charsContain u.data "@".data <;> simp [hc]

/-- The first-match lemma for the direct-message space walk: given the
per-space membership answers, the loop returns the success envelope of
the FIRST listed space containing the user, and the not-found envelope
when none does. -/
theorem findDMLoop_spec (svc : Service) (userId user : Json)
    (nmOf : Json → Json) (memsOf : Json → List Json) :
    ∀ spaces : List Json,
    (∀ s ∈ spaces, Json.item s "name" = (pure (nmOf s) : PyM Json)) →
    (∀ s ∈ spaces, svc.membersList (nmOf s) none none none
      = Except.ok (Json.obj [("memberships", Json.arr (memsOf s))])) →
    (∀ s ∈ spaces, ∀ m ∈ memsOf s, dmMemberOkB m = true) →
    (MemberTools.findDMLoop svc userId user spaces).1
      = Except.ok (match spaces.find? (fun s => (memsOf s).any (dmMatchB userId)) with
        | some s => Json.obj [("success", Json.bool true), ("space", s),
            ("space_id", nmOf s), ("existing", Json.bool true)]
        | none => Json.obj [("success", Json.bool false),
            ("message", Json.str ("No direct message space found with " ++ user.pyStr
              ++ ". Send a message to create one.")),
            ("user", userId)]) := by
  intro spaces
  induction spaces with
  | nil => intro _ _ _; rfl
  | cons s rest ih =>
    intro h1 h2 h3
    have hs1 := h1 s (List.mem_cons_self s rest)
    have hs3 := h3 s (List.mem_cons_self s rest)
    have hcall : (Service.callMembersList svc (nmOf s) none none none).1
        = Except.ok (Json.obj [("memberships", Json.arr (memsOf s))]) :=
      h2 s (List.mem_cons_self s rest)
    have h1r := fun x hx => h1 x (List.mem_cons_of_mem _ hx)
    have h2r := fun x hx => h2 x (List.mem_cons_of_mem _ hx)
    have h3r := fun x hx => h3 x (List.mem_cons_of_mem _ hx)
    rw [List.find?_cons]
    unfold MemberTools.findDMLoop
    rw [hs1]
    simp only [pure_bind_pym, fst_bind, hcall, Json.getD, kvLookup, Json.asList,
      beq_self_eq_true, if_true, eq_self_iff_true, Option.getD_some,
      filterUserMembers_spec userId (memsOf s) hs3, fst_pure]
    cases hf : (memsOf s).any (dmMatchB userId) with
    | true =>
      rw [any_eq_not_isEmpty_filter] at hf
      simp [hf, fst_pure]
    | false =>
      rw [any_eq_not_isEmpty_filter] at hf
      simp only [hf, Bool.false_eq_true, if_false]
      exact ih h1r h2r h3r

/-- C9: for every user identifier, `find_direct_message` lists the
direct-message-type spaces (filter `spaceType=DIRECT_MESSAGE`), checks
each listed space\x27s member list for the normalized user identifier
(`users/...` stem added to emails and bare ids), and returns the FIRST
matching space as `\x7bsuccess: true, existing: true, space: <match>,
space_id: <its name>\x7d`; when no space contains the user it returns
`\x7bsuccess: false\x7d` with the explanatory create-one message — a
plain non-error envelope, no exception and no `error` key. -/
theorem C9_find_direct_message_first_match
    (svc : Service) (er : Except Exc Unit) (args : Args) (u : String)
    (spaces : List Json) (nmOf : Json → Json) (memsOf : Json → List Json)
    (hu : kvLookup args "user" = some (Json.str u))
    (hspaces : svc.spacesList none (some (Json.str "spaceType=DIRECT_MESSAGE"))
      = Except.ok (Json.obj [("spaces", Json.arr spaces)]))
    (hname : ∀ s ∈ spaces, Json.item s "name" = (pure (nmOf s) : PyM Json))
    (hmem : ∀ s ∈ spaces, svc.membersList (nmOf s) none none none
      = Except.ok (Json.obj [("memberships", Json.arr (memsOf s))]))
    (hwf : ∀ s ∈ spaces, ∀ m ∈ memsOf s, dmMemberOkB m = true) :
    (MemberTools.find_direct_message ⟨er, Except.ok svc⟩ args).1
      = match spaces.find?
          (fun s => (memsOf s).any (dmMatchB (Json.str (pyNormalizeUser u)))) with
        | some s => Json.obj [("success", Json.bool true), ("space", s),
            ("space_id", nmOf s), ("existing", Json.bool true)]
        | none => Json.obj [("success", Json.bool false),
            ("message", Json.str ("No direct message space found with " ++ u
              ++ ". Send a message to create one.")),
            ("user", Json.str (pyNormalizeUser u))] := by
  have hloop := findDMLoop_spec svc (Json.str (pyNormalizeUser u)) (Json.str u)
    nmOf memsOf spaces hname hmem hwf
  have hcall : (Service.callSpacesList svc none (some (Json.str "spaceType=DIRECT_MESSAGE"))).1
      = Except.ok (Json.obj [("spaces", Json.arr spaces)]) := hspaces
  unfold MemberTools.find_direct_message
  rw [runMethod_fst]
  simp only [fst_bind, AuthState.getService, PyM.ofExcept, argItem, hu,
    formatUserId_str, pure_bind_pym, hcall, Json.getD, kvLookup,
    beq_self_eq_true, if_true, eq_self_iff_true, Option.getD_some,
    Json.asList, hloop, Json.pyStr]

/-- Witness scenario: first direct-message space without the target
user, second with. -/
def c9SpaceA : Json := .obj [("name", .str "spaces/AAA"), ("spaceType", .str "DIRECT_MESSAGE")]

def c9SpaceB : Json := .obj [("name", .str "spaces/BBB"), ("spaceType", .str "DIRECT_MESSAGE")]

def c9MemberA : Json := .obj [("member", .obj [("name", .str "users/other")])]

def c9MemberB : Json := .obj [("member", .obj [("name", .str "users/111")])]

def c9MemsOf (s : Json) : List Json :=
  if Json.beq (jLookupTotal s "name") (.str "spaces/BBB") then [c9MemberB] else [c9MemberA]

def svcC9 : Service where
  messagesCreate := fun _ _ => .ok (.obj [])
  messagesList := fun _ _ _ _ => .ok (.obj [("messages", .arr [])])
  messagesGet := fun _ => .ok (.obj [])
  messagesPatch := fun _ _ _ => .ok (.obj [])
  messagesDelete := fun _ => .ok (.obj [])
  spacesList := fun _ _ => .ok (.obj [("spaces", .arr [c9SpaceA, c9SpaceB])])
  spacesGet := fun _ => .ok (.obj [])
  spacesCreate := fun _ => .ok (.obj [])
  spacesPatch := fun _ _ _ => .ok (.obj [])
  spacesDelete := fun _ => .ok (.obj [])
  membersList := fun parent _ _ _ =>
    if Json.beq parent (.str "spaces/BBB")
    then .ok (.obj [("memberships", .arr [c9MemberB])])
    else .ok (.obj [("memberships", .arr [c9MemberA])])
  membersGet := fun _ => .ok (.obj [])
  membersCreate := fun _ _ => .ok (.obj [])
  membersPatch := fun _ _ _ => .ok (.obj [])
  membersDelete := fun _ => .ok (.obj [])
  httpPost := fun _ _ => .ok (200, .obj [], "")

theorem C9_witness :
    (MemberTools.find_direct_message ⟨Except.ok (), Except.ok svcC9⟩
        [("user", Json.str "111")]).1
      = Json.obj [("success", Json.bool true), ("space", c9SpaceB),
          ("space_id", Json.str "spaces/BBB"), ("existing", Json.bool true)] := by
  rw [C9_find_direct_message_first_match svcC9 (Except.ok ()) [("user", Json.str "111")]
    "111" [c9SpaceA, c9SpaceB] (fun s => jLookupTotal s "name") c9MemsOf
    rfl rfl ?hn ?hm ?hw]
  · rfl
  case hn =>
    intro s hs
    cases hs with
    | head => rfl
    | tail _ hs2 =>
      cases hs2 with
      | head => rfl
      | tail _ hs3 => cases hs3
  case hm =>
    intro s hs
    cases hs with
    | head => rfl
    | tail _ hs2 =>
      cases hs2 with
      | head => rfl
      | tail _ hs3 => cases hs3
  case hw =>
    intro s hs
    cases hs with
    | head =>
      intro m hm
      cases hm with
      | head => rfl
      | tail _ hm2 => cases hm2
    | tail _ hs2 =>
      cases hs2 with
      | head =>
        intro m hm
        cases hm with
        | head => rfl
        | tail _ hm2 => cases hm2
      | tail _ hs3 => cases hs3

/-! ## C3 -/

theorem runMethodPlain_fst (body : PyM Json) :
    (runMethodPlain body).1 = match body.1 with
      | Except.ok v => v
      | Except.error e => Json.obj [("error", Json.str e.msgStr)] := by
  obtain ⟨r, w⟩ := body
  rcases r <;> rfl

theorem b64Char_ascii (n : Nat) : (b64Char n).toNat < 128 := by
  unfold b64Char
  rw [List.getD_eq_getElem?_getD]
  cases h : b64Alphabet[n]? with
  | none => decide
  | some c =>
    have hall : ∀ x ∈ b64Alphabet, x.toNat < 128 := by decide
    exact hall c (List.getElem?_mem h)

theorem b64Encode_ascii (bs : List Nat) : allAsciiChars (b64Encode bs).data = true := by
  induction bs using b64Encode.induct with
  | case1 b0 b1 b2 rest ih =>
    simp only [b64Encode, String.data_append, allAsciiChars, List.all_append] at ih ⊢
    simp [ih, b64Char_ascii]
  | case2 b0 b1 =>
    simp [b64Encode, allAsciiChars, b64Char_ascii]
  | case3 b0 =>
    simp [b64Encode, allAsciiChars, b64Char_ascii]
  | case4 => rfl

theorem kvLookupS_kvSetS (k v key : String) :
    ∀ d : List (String × String),
    kvLookupS (kvSetS d k v) key = if k == key then some v else kvLookupS d key := by
  intro d
  induction d with
  | nil => rfl
  | cons kv0 rest ih =>
    obtain ⟨k0, v0⟩ := kv0
    by_cases h0 : k0 = k
    · subst h0
      simp only [kvSetS, beq_self_eq_true, if_true, kvLookupS]
      by_cases hkey : (k0 == key) = true <;> simp [hkey]
    · have hne : (k0 == k) = false := by simp [beq_iff_eq, h0]
      have hcase : kvSetS ((k0, v0) :: rest) k v = (k0, v0) :: kvSetS rest k v := by
        simp [kvSetS, hne]
      rw [hcase]
      by_cases h1 : k0 = key
      · subst h1
        have hk : (k == k0) = false := by
          cases hkk : k == k0
          · rfl
          · exact absurd (eq_of_beq hkk).symm h0
        simp [kvLookupS, hk]
      · have hk1 : (k0 == key) = false := by simp [beq_iff_eq, h1]
        simp [kvLookupS, hk1, ih]

/-- Spec-side reading of the signature-header parse: split the header
on commas, split each part at its first `=`, and take the value of the
LAST `v1` binding (later dict assignments overwrite earlier ones),
empty string when none. -/
def specV1 (hdr : String) : String :=
  (((pySplitOn hdr.data ',').filterMap (fun p => splitOnce p '=')).reverse.find?
    (fun kv => (⟨kv.1⟩ : String) == "v1")).elim "" (fun kv => (⟨kv.2⟩ : String))

/-- The dict-building fold over header parts looks keys up as a
last-binding-wins reverse search of the parsed parts. -/
theorem foldl_parts_lookup (key : String) :
    ∀ (parts : List (List Char)) (init : List (String × String)),
    kvLookupS (parts.foldl WebhookTools.sigPartStep init) key
    = ((parts.filterMap (fun p => splitOnce p '=')).reverse.find?
        (fun kv => (⟨kv.1⟩ : String) == key)).elim (kvLookupS init key)
        (fun kv => some (⟨kv.2⟩ : String)) := by
  intro parts
  induction parts with
  | nil => intro init; rfl
  | cons p t ih =>
    intro init
    simp only [List.foldl_cons, List.filterMap_cons, WebhookTools.sigPartStep]
    cases hs : splitOnce p '=' with
    | none => rw [ih]
    | some kv =>
      obtain ⟨k, v⟩ := kv
      rw [ih, List.reverse_cons, List.find?_append]
      cases hf : ((t.filterMap (fun p => splitOnce p '=')).reverse.find?
          (fun kv => (⟨kv.1⟩ : String) == key)) with
      | some kv2 => simp [Option.or, Option.elim]
      | none =>
        simp only [Option.or, Option.elim, List.find?]
        cases hk : ((⟨k⟩ : String) == key) with
        | true => simp [kvLookupS_kvSetS, hk]
        | false => simp [kvLookupS_kvSetS, hk]

theorem pySplitOn_subset (sep : Char) :
    ∀ (cs : List Char), ∀ p ∈ pySplitOn cs sep, ∀ c ∈ p, c ∈ cs := by
  intro cs
  induction cs with
  | nil =>
    intro p hp c hc
    simp only [pySplitOn, List.mem_singleton] at hp
    subst hp
    cases hc
  | cons a rest ih =>
    intro p hp c hc
    simp only [pySplitOn] at hp
    cases ha : (a == sep) with
    | true =>
      rw [ha] at hp
      simp only [if_true] at hp
      rcases List.mem_cons.mp hp with rfl | hp2
      · cases hc
      · exact List.mem_cons_of_mem a (ih p hp2 c hc)
    | false =>
      rw [ha] at hp
      simp only [Bool.false_eq_true, if_false] at hp
      cases hrec : pySplitOn rest sep with
      | nil =>
        rw [hrec] at hp
        simp only [List.mem_singleton] at hp
        subst hp
        rcases List.mem_singleton.mp hc with rfl
        exact List.mem_cons_self c rest
      | cons h t =>
        rw [hrec] at hp
        rcases List.mem_cons.mp hp with rfl | hp2
        · rcases List.mem_cons.mp hc with rfl | hc2
          · exact List.mem_cons_self c rest
          · have hh : h ∈ pySplitOn rest sep := by rw [hrec]; exact List.mem_cons_self h t
            exact List.mem_cons_of_mem a (ih h hh c hc2)
        · have hp3 : p ∈ pySplitOn rest sep := by rw [hrec]; exact List.mem_cons_of_mem h hp2
          exact List.mem_cons_of_mem a (ih p hp3 c hc)

theorem splitOnce_subset (sep : Char) :
    ∀ (cs k v : List Char), splitOnce cs sep = some (k, v) →
    (∀ c ∈ k, c ∈ cs) ∧ (∀ c ∈ v, c ∈ cs) := by
  intro cs
  induction cs with
  | nil => intro k v h; cases h
  | cons a rest ih =>
    intro k v h
    simp only [splitOnce] at h
    cases ha : (a == sep) with
    | true =>
      rw [ha] at h
      simp only [if_true] at h
      injection h with h2
      injection h2 with hk hv
      subst hk; subst hv
      exact ⟨fun c hc => absurd hc (List.not_mem_nil c),
             fun c hc => List.mem_cons_of_mem a hc⟩
    | false =>
      rw [ha] at h
      simp only [Bool.false_eq_true, if_false] at h
      cases hrec : splitOnce rest sep with
      | none => rw [hrec] at h; cases h
      | some kv2 =>
        obtain ⟨a2, b2⟩ := kv2
        rw [hrec] at h
        injection h with h2
        injection h2 with hk hv
        subst hk; subst hv
        obtain ⟨ihk, ihv⟩ := ih a2 b2 hrec
        refine ⟨fun c hc => ?_, fun c hc => List.mem_cons_of_mem a (ihv c hc)⟩
        rcases List.mem_cons.mp hc with rfl | hc2
        · exact List.mem_cons_self c rest
        · exact List.mem_cons_of_mem a (ihk c hc2)

/-- A non-ASCII-free header cannot smuggle non-ASCII into the parsed
`v1` value: the parsed value\x27s characters all come from the header. -/
theorem specV1_ascii (hdr : String) (h : allAsciiChars hdr.data = true) :
    allAsciiChars (specV1 hdr).data = true := by
  unfold specV1
  cases hf : (((pySplitOn hdr.data ',').filterMap (fun p => splitOnce p '=')).reverse.find?
      (fun kv => (⟨kv.1⟩ : String) == "v1")) with
  | none => rfl
  | some kv =>
    obtain ⟨k, v⟩ := kv
    have hkv := List.mem_of_find?_eq_some hf
    rw [List.mem_reverse] at hkv
    obtain ⟨p, hp, hsp⟩ := List.mem_filterMap.mp hkv
    simp only [Option.elim, allAsciiChars, List.all_eq_true] at h ⊢
    intro c hc
    exact h c (pySplitOn_subset ',' hdr.data p hp c ((splitOnce_subset '=' p k v hsp).2 c hc))

/-- The `v1` extraction inside `validate_webhook_signature` equals the
spec-side header parse. -/
theorem sigPartsFold_v1 (hdr : String) :
    (kvLookupS (WebhookTools.sigPartsFold (pySplitOn hdr.data ',')) "v1").getD ""
      = specV1 hdr := by
  unfold WebhookTools.sigPartsFold specV1
  rw [foldl_parts_lookup]
  cases hf : (((pySplitOn hdr.data ',').filterMap (fun p => splitOnce p '=')).reverse.find?
      (fun kv => (⟨kv.1⟩ : String) == "v1")) with
  | none => rfl
  | some kv => rfl

theorem compareDigest_ascii (a b : String)
    (ha : allAsciiChars a.data = true) (hb : allAsciiChars b.data = true) :
    compareDigest a b = (pure (a == b) : PyM Bool) := by
  simp [compareDigest, ha, hb]

/-- C3 counterexample: the claim quantifies over every timestamp
string, but a non-numeric timestamp makes `int(timestamp)` raise
`ValueError`, and the whole result collapses to the generic error
envelope — no `is_valid`, `is_recent` or `signature_valid` is
reported at all, even though the signature itself was checkable. -/
theorem C3_counterexample_nonnumeric_timestamp :
    (WebhookTools.validate_webhook_signature 1700000000
      [("request_body", Json.str "b"), ("signature", Json.str "t=1,v1=x"),
       ("timestamp", Json.str "abc"), ("webhook_secret", Json.str "s")]).1
      = Json.obj [("error", Json.str "invalid literal for int() with base 10: \x27abc\x27")] := by
  rfl

/-- C3 (amended: the timestamp must parse as an integer — otherwise
`int(timestamp)` raises and the tool returns the generic error envelope
instead of the validation report — and the header must be ASCII, else
`hmac.compare_digest` on strings raises `TypeError`): for every request
body, ASCII signature header, integer timestamp string and secret,
`validate_webhook_signature` reports `is_valid` as the comparison of
the base64-encoded HMAC-SHA256 (keyed by the secret) of
`"\x7btimestamp\x7d.\x7brawBody\x7d"` against the last `v1` field of the
comma-separated `key=value` header, `is_recent` as
`|now − timestamp| ≤ 300`, and `signature_valid` as their conjunction. -/
theorem C3_signature_validation
    (nowSec t : Int) (args : Args) (body sigHdr ts secret : String)
    (h1 : kvLookup args "request_body" = some (Json.str body))
    (h2 : kvLookup args "signature" = some (Json.str sigHdr))
    (h3 : kvLookup args "timestamp" = some (Json.str ts))
    (h4 : kvLookup args "webhook_secret" = some (Json.str secret))
    (ht : pyIntParse ts = some t)
    (hascii : allAsciiChars sigHdr.data = true) :
    (WebhookTools.validate_webhook_signature nowSec args).1
      = Json.obj [("success", Json.bool true),
          ("is_valid", Json.bool
            (b64Encode (hmacSha256 (utf8Encode secret) (utf8Encode (ts ++ "." ++ body)))
              == specV1 sigHdr)),
          ("is_recent", Json.bool (decide (((nowSec - t).natAbs : Int) ≤ 300))),
          ("time_difference_seconds", Json.num ((nowSec - t).natAbs : Int)),
          ("signature_valid", Json.bool
            ((b64Encode (hmacSha256 (utf8Encode secret) (utf8Encode (ts ++ "." ++ body)))
              == specV1 sigHdr) && decide (((nowSec - t).natAbs : Int) ≤ 300)))] := by
  have hcd : compareDigest
      (b64Encode (hmacSha256 (utf8Encode secret) (utf8Encode (ts ++ "." ++ body))))
      (specV1 sigHdr)
      = (pure ((b64Encode (hmacSha256 (utf8Encode secret) (utf8Encode (ts ++ "." ++ body))))
          == specV1 sigHdr) : PyM Bool) :=
    compareDigest_ascii _ _ (b64Encode_ascii _) (specV1_ascii sigHdr hascii)
  unfold WebhookTools.validate_webhook_signature
  rw [runMethodPlain_fst]
  simp only [argItem, h1, h2, h3, h4, pure_bind_pym, Json.pyStr, sigPartsFold_v1,
    hcd, pyIntOf, ht, fst_bind, fst_pure]

theorem C3_witness :
    (WebhookTools.validate_webhook_signature 1700000000
      [("request_body", Json.str "\x7b\x7d"),
       ("signature",
        Json.str "t=1700000000,v1=3YUI5E2an4LyaQ+33/HaimrplwDZiiOk5+HDB688tss="),
       ("timestamp", Json.str "1700000000"),
       ("webhook_secret", Json.str "s3cr3t")]).1
      = Json.obj [("success", Json.bool true), ("is_valid", Json.bool true),
          ("is_recent", Json.bool true), ("time_difference_seconds", Json.num 0),
          ("signature_valid", Json.bool true)] := by
  rw [C3_signature_validation 1700000000 1700000000
      [("request_body", Json.str "\x7b\x7d"),
       ("signature",
        Json.str "t=1700000000,v1=3YUI5E2an4LyaQ+33/HaimrplwDZiiOk5+HDB688tss="),
       ("timestamp", Json.str "1700000000"),
       ("webhook_secret", Json.str "s3cr3t")]
      "\x7b\x7d" "t=1700000000,v1=3YUI5E2an4LyaQ+33/HaimrplwDZiiOk5+HDB688tss="
      "1700000000" "s3cr3t" rfl rfl rfl rfl rfl rfl]
  rfl

/-! ## C7 -/

theorem char_eq_of_toNat_eq {a b : Char} (h : a.toNat = b.toNat) : a = b :=
  Char.ext (UInt32.toNat.inj h)

theorem lexLe_trans : ∀ x y z : List Char,
    lexLe x y = true → lexLe y z = true → lexLe x z = true := by
  intro x
  induction x with
  | nil => intro y z _ _; rfl
  | cons a as ih =>
    intro y z hxy hyz
    cases y with
    | nil => simp [lexLe] at hxy
    | cons b bs =>
      cases z with
      | nil => simp [lexLe] at hyz
      | cons c cs =>
        simp only [lexLe] at hxy hyz ⊢
        by_cases hab : a.toNat < b.toNat
        · by_cases hbc : b.toNat < c.toNat
          · have hac : a.toNat < c.toNat := Nat.lt_trans hab hbc
            simp [hac]
          · by_cases hcb : c.toNat < b.toNat
            · simp [hbc, hcb] at hyz
            · have hac : a.toNat < c.toNat := by omega
              simp [hac]
        · by_cases hba : b.toNat < a.toNat
          · simp [hab, hba] at hxy
          · simp only [hab, hba, if_false] at hxy
            by_cases hbc : b.toNat < c.toNat
            · have hac : a.toNat < c.toNat := by omega
              simp [hac]
            · by_cases hcb : c.toNat < b.toNat
              · simp [hbc, hcb] at hyz
              · simp only [hbc, hcb, if_false] at hyz
                have hac : ¬ a.toNat < c.toNat := by omega
                have hca : ¬ c.toNat < a.toNat := by omega
                simp only [hac, hca, if_false]
                exact ih bs cs hxy hyz

theorem lexLe_total : ∀ x y : List Char, lexLe x y = false → lexLe y x = true := by
  intro x
  induction x with
  | nil => intro y h; cases h
  | cons a as ih =>
    intro y h
    cases y with
    | nil => rfl
    | cons b bs =>
      simp only [lexLe] at h ⊢
      by_cases hab : a.toNat < b.toNat
      · simp [hab] at h
      · by_cases hba : b.toNat < a.toNat
        · simp [hba]
        · simp only [hab, hba, if_false] at h
          simp only [hab, hba, if_false]
          exact ih bs h

theorem lexLe_antisymm : ∀ x y : List Char,
    lexLe x y = true → lexLe y x = true → x = y := by
  intro x
  induction x with
  | nil =>
    intro y _ hyx
    cases y with
    | nil => rfl
    | cons b bs => simp [lexLe] at hyx
  | cons a as ih =>
    intro y hxy hyx
    cases y with
    | nil => simp [lexLe] at hxy
    | cons b bs =>
      simp only [lexLe] at hxy hyx
      by_cases hab : a.toNat < b.toNat
      · have hba : ¬ b.toNat < a.toNat := by omega
        simp [hab, hba] at hyx
      · by_cases hba : b.toNat < a.toNat
        · simp [hab, hba] at hxy
        · simp only [hab, hba, if_false] at hxy hyx
          have hchar : a = b := char_eq_of_toNat_eq (by omega)
          rw [hchar, ih bs hxy hyx]

theorem insertDescBy_perm (key : Json → List Char) (a : Json) :
    ∀ l : List Json, List.Perm (insertDescBy key a l) (a :: l) := by
  intro l
  induction l with
  | nil => exact List.Perm.refl _
  | cons b bs ih =>
    unfold insertDescBy
    by_cases hc : lexLe (key b) (key a) = true
    · rw [if_pos hc]
    · rw [if_neg hc]
      exact (ih.cons b).trans (List.Perm.swap a b bs)

theorem sortDescBy_perm (key : Json → List Char) :
    ∀ l : List Json, List.Perm (sortDescBy key l) l := by
  intro l
  induction l with
  | nil => exact List.Perm.refl _
  | cons a as ih =>
    unfold sortDescBy
    simp only [List.foldr_cons]
    exact (insertDescBy_perm key a _).trans (ih.cons a)

/-- The ordering invariant of the descending sort. -/
def DescBy (key : Json → List Char) (l : List Json) : Prop :=
  l.Pairwise (fun x y => lexLe (key y) (key x) = true)

theorem insertDescBy_pairwise (key : Json → List Char) (a : Json) :
    ∀ l : List Json, DescBy key l → DescBy key (insertDescBy key a l) := by
  intro l
  induction l with
  | nil => intro _; exact List.pairwise_singleton _ a
  | cons b bs ih =>
    intro h
    rcases List.pairwise_cons.mp h with ⟨hb, hbs⟩
    unfold insertDescBy
    by_cases hc : lexLe (key b) (key a) = true
    · rw [if_pos hc]
      refine List.pairwise_cons.mpr ⟨?_, h⟩
      intro x hx
      rcases List.mem_cons.mp hx with rfl | hx2
      · exact hc
      · exact lexLe_trans _ _ _ (hb x hx2) hc
    · rw [if_neg hc]
      refine List.pairwise_cons.mpr ⟨?_, ih hbs⟩
      intro x hx
      have hx2 := (insertDescBy_perm key a bs).mem_iff.mp hx
      rcases List.mem_cons.mp hx2 with rfl | hx3
      · exact lexLe_total _ _ (Bool.eq_false_iff.mpr hc)
      · exact hb x hx3

theorem sortDescBy_pairwise (key : Json → List Char) :
    ∀ l : List Json, DescBy key (sortDescBy key l) := by
  intro l
  induction l with
  | nil => exact List.Pairwise.nil
  | cons a as ih =>
    unfold sortDescBy
    simp only [List.foldr_cons]
    exact insertDescBy_pairwise key a _ ih

/-- Two sorted lists that are permutations of each other and whose
keys are pairwise distinct are equal. -/
theorem descBy_perm_nodup_eq (key : Json → List Char) :
    ∀ l1 l2 : List Json, List.Perm l1 l2 → DescBy key l1 → DescBy key l2 →
    (l1.map key).Nodup → l1 = l2 := by
  intro l1
  induction l1 with
  | nil => intro l2 hp _ _ _; exact hp.symm.eq_nil.symm
  | cons a t1 ih =>
    intro l2 hp h1 h2 hnd
    cases l2 with
    | nil => exact List.noConfusion hp.eq_nil
    | cons b t2 =>
      rcases List.pairwise_cons.mp h1 with ⟨ha1, ht1⟩
      rcases List.pairwise_cons.mp h2 with ⟨hb2, ht2⟩
      rcases List.nodup_cons.mp ((List.map_cons key a t1) ▸ hnd) with ⟨hka, hndt⟩
      have hab : a = b := by
        by_contra hne
        have hain : a ∈ b :: t2 := hp.mem_iff.mp (List.mem_cons_self a t1)
        have hat2 : a ∈ t2 := by
          rcases List.mem_cons.mp hain with rfl | h
          · exact absurd rfl hne
          · exact h
        have hbin : b ∈ a :: t1 := hp.symm.mem_iff.mp (List.mem_cons_self b t2)
        have hbt1 : b ∈ t1 := by
          rcases List.mem_cons.mp hbin with rfl | h
          · exact absurd rfl (fun hh => hne hh.symm)
          · exact h
        have h1ab : lexLe (key b) (key a) = true := ha1 b hbt1
        have h2ba : lexLe (key a) (key b) = true := hb2 a hat2
        have hkeq : key b = key a := lexLe_antisymm _ _ h1ab h2ba
        exact hka (hkeq ▸ List.mem_map_of_mem key hbt1)
      subst hab
      have hpt : List.Perm t1 t2 := hp.cons_inv
      rw [ih t2 hpt ht1 ht2 hndt]

theorem sortDescBy_eq_of_perm (key : Json → List Char) (l1 l2 : List Json)
    (hp : List.Perm l1 l2) (hnd : (l1.map key).Nodup) :
    sortDescBy key l1 = sortDescBy key l2 := by
  apply descBy_perm_nodup_eq key
  · exact (sortDescBy_perm key l1).trans (hp.trans (sortDescBy_perm key l2).symm)
  · exact sortDescBy_pairwise key l1
  · exact sortDescBy_pairwise key l2
  · exact (((sortDescBy_perm key l1).map key).nodup_iff).mpr hnd

/-- Spec-side reading of the recent-activity collection: per space,
keep exactly the fetched messages whose parsed creation timestamp is
at or after the threshold, tagging each with its originating space;
concatenate in space order. -/
def recentSpec (thresholdUs : Int) (nmOf : Json → Json) (msgsOf : Json → List Json)
    (ctOf : Json → String) (epochOf : Json → Int) (spaces : List Json) : List Json :=
  (spaces.map (fun s => (msgsOf s).filterMap (fun m =>
    if epochOf m ≥ thresholdUs then
      some (SearchTools.mkActivity (Json.str (ctOf m)) (nmOf s) s m)
    else none))).flatten

/-- The message keep loop computes the spec-side filter on messages
whose creation timestamps are nonempty parseable aware ISO strings. -/
theorem recentKeep_spec (thresholdUs : Int) (spaceName spaceInfo : Json)
    (ctOf : Json → String) (epochOf : Json → Int) :
    ∀ msgs : List Json,
    (∀ m ∈ msgs, Json.getD m "createTime" (Json.str "") = (pure (Json.str (ctOf m)) : PyM Json)) →
    (∀ m ∈ msgs, (ctOf m).data.isEmpty = false) →
    (∀ m ∈ msgs, parseIso (replaceAll (ctOf m).data "Z".data "+00:00".data)
        = some ⟨epochOf m, true⟩) →
    SearchTools.recentKeep thresholdUs spaceName spaceInfo msgs
      = (pure (msgs.filterMap (fun m =>
          if epochOf m ≥ thresholdUs then
            some (SearchTools.mkActivity (Json.str (ctOf m)) spaceName spaceInfo m)
          else none)) : PyM (List Json)) := by
  intro msgs
  induction msgs with
  | nil => intro _ _ _; rfl
  | cons m rest ih =>
    intro h1 h2 h3
    have hm1 := h1 m (List.mem_cons_self m rest)
    have hm2 := h2 m (List.mem_cons_self m rest)
    have hm3 := h3 m (List.mem_cons_self m rest)
    have h1r := fun x hx => h1 x (List.mem_cons_of_mem _ hx)
    have h2r := fun x hx => h2 x (List.mem_cons_of_mem _ hx)
    have h3r := fun x hx => h3 x (List.mem_cons_of_mem _ hx)
    rw [List.filterMap_cons]
    unfold SearchTools.recentKeep
    rw [hm1]
    simp only [pure_bind_pym, SearchTools.recentKeepTest, Json.truthy, hm2,
      Bool.not_false, if_true, hm3, ih h1r h2r h3r]
    cases hdec : decide (epochOf m ≥ thresholdUs) with
    | true =>
      have hge : epochOf m ≥ thresholdUs := of_decide_eq_true hdec
      simp [hdec, hge]
    | false =>
      have hlt : ¬ epochOf m ≥ thresholdUs := of_decide_eq_false hdec
      simp [hdec, hlt]

/-- The guarded per-space fetch under the default `activity_types`
(`["MESSAGE"]`). -/
theorem recentFetchSpace_spec (svc : Service) (thresholdUs L : Int)
    (spaceName spaceInfo : Json) (msgs : List Json)
    (ctOf : Json → String) (epochOf : Json → Int)
    (hresp : svc.messagesList spaceName (Json.num (min L 50))
        (Json.str "create_time desc") none
      = Except.ok (Json.obj [("messages", Json.arr msgs)]))
    (h1 : ∀ m ∈ msgs, Json.getD m "createTime" (Json.str "")
        = (pure (Json.str (ctOf m)) : PyM Json))
    (h2 : ∀ m ∈ msgs, (ctOf m).data.isEmpty = false)
    (h3 : ∀ m ∈ msgs, parseIso (replaceAll (ctOf m).data "Z".data "+00:00".data)
        = some ⟨epochOf m, true⟩) :
    (SearchTools.recentFetchSpace svc thresholdUs (Json.num L)
        (Json.arr [Json.str "MESSAGE"]) spaceName spaceInfo).1
      = Except.ok (msgs.filterMap (fun m =>
          if epochOf m ≥ thresholdUs then
            some (SearchTools.mkActivity (Json.str (ctOf m)) spaceName spaceInfo m)
          else none)) := by
  have hcall : (Service.callMessagesList svc spaceName (Json.num (min L 50))
      (Json.str "create_time desc") none).1
      = Except.ok (Json.obj [("messages", Json.arr msgs)]) := hresp
  have hwant : pyInJson (Json.str "MESSAGE") (Json.arr [Json.str "MESSAGE"])
      = (pure true : PyM Bool) := rfl
  unfold SearchTools.recentFetchSpace
  simp only [hwant, pure_bind_pym, if_true, pyMinNum, fst_bind, hcall, Json.getD,
    kvLookup, beq_self_eq_true, eq_self_iff_true, Option.getD_some, Json.asList,
    recentKeep_spec thresholdUs spaceName spaceInfo ctOf epochOf msgs h1 h2 h3,
    fst_pure]

/-- The per-space loop concatenates the spec-side per-space results in
space order (all per-space calls succeeding). -/
theorem recentLoop_spec (svc : Service) (thresholdUs L : Int)
    (nmOf : Json → Json) (msgsOf : Json → List Json)
    (ctOf : Json → String) (epochOf : Json → Int) :
    ∀ spaces : List Json,
    (∀ s ∈ spaces, Json.item s "name" = (pure (nmOf s) : PyM Json)) →
    (∀ s ∈ spaces, svc.messagesList (nmOf s) (Json.num (min L 50))
        (Json.str "create_time desc") none
      = Except.ok (Json.obj [("messages", Json.arr (msgsOf s))])) →
    (∀ s ∈ spaces, ∀ m ∈ msgsOf s,
      Json.getD m "createTime" (Json.str "") = (pure (Json.str (ctOf m)) : PyM Json)
      ∧ (ctOf m).data.isEmpty = false
      ∧ parseIso (replaceAll (ctOf m).data "Z".data "+00:00".data)
          = some ⟨epochOf m, true⟩) →
    (SearchTools.recentLoop svc thresholdUs (Json.num L)
        (Json.arr [Json.str "MESSAGE"]) spaces).1
      = Except.ok (recentSpec thresholdUs nmOf msgsOf ctOf epochOf spaces) := by
  intro spaces
  induction spaces with
  | nil => intro _ _ _; rfl
  | cons s rest ih =>
    intro h1 h2 h3
    have hs1 := h1 s (List.mem_cons_self s rest)
    have hfetch := recentFetchSpace_spec svc thresholdUs L (nmOf s) s (msgsOf s)
      ctOf epochOf (h2 s (List.mem_cons_self s rest))
      (fun m hm => ((h3 s (List.mem_cons_self s rest)) m hm).1)
      (fun m hm => ((h3 s (List.mem_cons_self s rest)) m hm).2.1)
      (fun m hm => ((h3 s (List.mem_cons_self s rest)) m hm).2.2)
    have h1r := fun x hx => h1 x (List.mem_cons_of_mem _ hx)
    have h2r := fun x hx => h2 x (List.mem_cons_of_mem _ hx)
    have h3r := fun x hx => h3 x (List.mem_cons_of_mem _ hx)
    unfold SearchTools.recentLoop
    rw [hs1]
    simp only [pure_bind_pym, fst_bind, fst_catchHttp, hfetch, ih h1r h2r h3r, fst_pure]
    simp [recentSpec]

/-- Full reduction of `get_recent_activity` (defaulted `space` and
`activity_types`, numeric `hours` and nonnegative numeric `limit`,
all per-space calls succeeding): keep in-window messages, tag with
originating space, sort globally by timestamp descending, truncate. -/
theorem get_recent_activity_spec (svc : Service) (er : Except Exc Unit)
    (nowUs H L : Int) (args : Args) (spaces : List Json)
    (nmOf : Json → Json) (msgsOf : Json → List Json)
    (ctOf : Json → String) (epochOf : Json → Int)
    (hsp : kvLookup args "space" = none)
    (hh : kvLookup args "hours" = some (Json.num H))
    (hl : kvLookup args "limit" = some (Json.num L))
    (hL : 0 ≤ L)
    (hat : kvLookup args "activity_types" = none)
    (hspaces : svc.spacesList (some (Json.num 50)) none
      = Except.ok (Json.obj [("spaces", Json.arr spaces)]))
    (hname : ∀ s ∈ spaces, Json.item s "name" = (pure (nmOf s) : PyM Json))
    (hmsg : ∀ s ∈ spaces, svc.messagesList (nmOf s) (Json.num (min L 50))
        (Json.str "create_time desc") none
      = Except.ok (Json.obj [("messages", Json.arr (msgsOf s))]))
    (hct : ∀ s ∈ spaces, ∀ m ∈ msgsOf s,
      Json.getD m "createTime" (Json.str "") = (pure (Json.str (ctOf m)) : PyM Json)
      ∧ (ctOf m).data.isEmpty = false
      ∧ parseIso (replaceAll (ctOf m).data "Z".data "+00:00".data)
          = some ⟨epochOf m, true⟩) :
    (SearchTools.get_recent_activity ⟨er, Except.ok svc⟩ nowUs args).1
      = Json.obj [("success", Json.bool true),
          ("activities", Json.arr ((sortDescBy activityKey
            (recentSpec (nowUs - H * 3600000000) nmOf msgsOf ctOf epochOf spaces)).take
              L.toNat)),
          ("count", Json.num (((sortDescBy activityKey
            (recentSpec (nowUs - H * 3600000000) nmOf msgsOf ctOf epochOf spaces)).take
              L.toNat).length : Int)),
          ("hours", Json.num H),
          ("activity_types", Json.arr [Json.str "MESSAGE"]),
          ("space", Json.null)] := by
  have hloop := recentLoop_spec svc (nowUs - H * 3600000000) L nmOf msgsOf ctOf epochOf
    spaces hname hmsg hct
  have hcall : (Service.callSpacesList svc (some (Json.num 50)) none).1
      = Except.ok (Json.obj [("spaces", Json.arr spaces)]) := hspaces
  unfold SearchTools.get_recent_activity SearchTools.recentCandidateSpaces
  rw [runMethod_fst]
  simp only [argGet?, argGetD, hsp, hh, hl, hat, Option.getD_none, Option.getD_some,
    AuthState.getService, PyM.ofExcept, fst_bind, pure_bind_pym, hcall, Json.getD,
    kvLookup, beq_self_eq_true, if_true, eq_self_iff_true, Json.asList, hloop,
    pySliceTo, fst_pure, hL]

/-- C7 (amended: order-independence of the output requires the kept
items\x27 timestamp keys to be pairwise distinct — the code sorts with
Python\x27s STABLE sort keyed on the raw timestamp string, so kept items
sharing a timestamp stay in space-processing order and permuting the
candidate spaces permutes them in the output): for every pair of
environments serving the same per-space data but listing the candidate
spaces in permuted orders, `get_recent_activity` keeps exactly the
messages whose parsed creation timestamp is at or after `now − hours`,
tags each with its originating space, sorts all kept items globally by
timestamp descending and truncates to `limit` — and when the kept
timestamps are pairwise distinct both environments produce the SAME
output envelope. -/
theorem C7_recent_activity_sorted_truncated (svc1 svc2 : Service)
    (er1 er2 : Except Exc Unit) (nowUs H L : Int) (args : Args)
    (spaces1 spaces2 : List Json)
    (nmOf : Json → Json) (msgsOf : Json → List Json)
    (ctOf : Json → String) (epochOf : Json → Int)
    (hsp : kvLookup args "space" = none)
    (hh : kvLookup args "hours" = some (Json.num H))
    (hl : kvLookup args "limit" = some (Json.num L))
    (hL : 0 ≤ L)
    (hat : kvLookup args "activity_types" = none)
    (hspaces1 : svc1.spacesList (some (Json.num 50)) none
      = Except.ok (Json.obj [("spaces", Json.arr spaces1)]))
    (hspaces2 : svc2.spacesList (some (Json.num 50)) none
      = Except.ok (Json.obj [("spaces", Json.arr spaces2)]))
    (hperm : List.Perm spaces1 spaces2)
    (hname : ∀ s ∈ spaces1, Json.item s "name" = (pure (nmOf s) : PyM Json))
    (hmsg1 : ∀ s ∈ spaces1, svc1.messagesList (nmOf s) (Json.num (min L 50))
        (Json.str "create_time desc") none
      = Except.ok (Json.obj [("messages", Json.arr (msgsOf s))]))
    (hmsg2 : ∀ s ∈ spaces1, svc2.messagesList (nmOf s) (Json.num (min L 50))
        (Json.str "create_time desc") none
      = Except.ok (Json.obj [("messages", Json.arr (msgsOf s))]))
    (hct : ∀ s ∈ spaces1, ∀ m ∈ msgsOf s,
      Json.getD m "createTime" (Json.str "") = (pure (Json.str (ctOf m)) : PyM Json)
      ∧ (ctOf m).data.isEmpty = false
      ∧ parseIso (replaceAll (ctOf m).data "Z".data "+00:00".data)
          = some ⟨epochOf m, true⟩)
    (hnd : ((recentSpec (nowUs - H * 3600000000) nmOf msgsOf ctOf epochOf spaces1).map
        activityKey).Nodup) :
    (SearchTools.get_recent_activity ⟨er1, Except.ok svc1⟩ nowUs args).1
      = Json.obj [("success", Json.bool true),
          ("activities", Json.arr ((sortDescBy activityKey
            (recentSpec (nowUs - H * 3600000000) nmOf msgsOf ctOf epochOf spaces1)).take
              L.toNat)),
          ("count", Json.num (((sortDescBy activityKey
            (recentSpec (nowUs - H * 3600000000) nmOf msgsOf ctOf epochOf spaces1)).take
              L.toNat).length : Int)),
          ("hours", Json.num H),
          ("activity_types", Json.arr [Json.str "MESSAGE"]),
          ("space", Json.null)]
    ∧ (SearchTools.get_recent_activity ⟨er2, Except.ok svc2⟩ nowUs args).1
      = Json.obj [("success", Json.bool true),
          ("activities", Json.arr ((sortDescBy activityKey
            (recentSpec (nowUs - H * 3600000000) nmOf msgsOf ctOf epochOf spaces2)).take
              L.toNat)),
          ("count", Json.num (((sortDescBy activityKey
            (recentSpec (nowUs - H * 3600000000) nmOf msgsOf ctOf epochOf spaces2)).take
              L.toNat).length : Int)),
          ("hours", Json.num H),
          ("activity_types", Json.arr [Json.str "MESSAGE"]),
          ("space", Json.null)]
    ∧ (SearchTools.get_recent_activity ⟨er1, Except.ok svc1⟩ nowUs args).1
      = (SearchTools.get_recent_activity ⟨er2, Except.ok svc2⟩ nowUs args).1 := by
  have ha := get_recent_activity_spec svc1 er1 nowUs H L args spaces1 nmOf msgsOf
    ctOf epochOf hsp hh hl hL hat hspaces1 hname hmsg1 hct
  have hb := get_recent_activity_spec svc2 er2 nowUs H L args spaces2 nmOf msgsOf
    ctOf epochOf hsp hh hl hL hat hspaces2
    (fun s hs => hname s (hperm.mem_iff.mpr hs))
    (fun s hs => hmsg2 s (hperm.mem_iff.mpr hs))
    (fun s hs => hct s (hperm.mem_iff.mpr hs))
  have hpermSpec : List.Perm
      (recentSpec (nowUs - H * 3600000000) nmOf msgsOf ctOf epochOf spaces1)
      (recentSpec (nowUs - H * 3600000000) nmOf msgsOf ctOf epochOf spaces2) := by
    unfold recentSpec
    exact (hperm.map _).flatten
  have hacts := sortDescBy_eq_of_perm activityKey _ _ hpermSpec hnd
  refine ⟨ha, hb, ?_⟩
  rw [ha, hb, hacts]

/-- Equal-timestamp counterexample environment: two spaces each
holding one in-window message bearing the SAME creation timestamp,
listed in the two possible orders. -/
def c7cSpX : Json := .obj [("name", .str "spaces/X")]

def c7cSpY : Json := .obj [("name", .str "spaces/Y")]

def c7cMsgX : Json := .obj [("name", .str "mx"), ("createTime", .str "2023-11-14T21:13:20Z")]

def c7cMsgY : Json := .obj [("name", .str "my"), ("createTime", .str "2023-11-14T21:13:20Z")]

def c7cBase : Service where
  messagesCreate := fun _ _ => .ok (.obj [])
  messagesList := fun parent _ _ _ =>
    if Json.beq parent (.str "spaces/X") then .ok (.obj [("messages", .arr [c7cMsgX])])
    else .ok (.obj [("messages", .arr [c7cMsgY])])
  messagesGet := fun _ => .ok (.obj [])
  messagesPatch := fun _ _ _ => .ok (.obj [])
  messagesDelete := fun _ => .ok (.obj [])
  spacesList := fun _ _ => .ok (.obj [("spaces", .arr [c7cSpX, c7cSpY])])
  spacesGet := fun _ => .ok (.obj [])
  spacesCreate := fun _ => .ok (.obj [])
  spacesPatch := fun _ _ _ => .ok (.obj [])
  spacesDelete := fun _ => .ok (.obj [])
  membersList := fun _ _ _ _ => .ok (.obj [("memberships", .arr [])])
  membersGet := fun _ => .ok (.obj [])
  membersCreate := fun _ _ => .ok (.obj [])
  membersPatch := fun _ _ _ => .ok (.obj [])
  membersDelete := fun _ => .ok (.obj [])
  httpPost := fun _ _ => .ok (200, .obj [], "")

def svc7c1 : Service := c7cBase

def svc7c2 : Service :=
  { c7cBase with spacesList := fun _ _ => .ok (.obj [("spaces", .arr [c7cSpY, c7cSpX])]) }

def c7cActX : Json := SearchTools.mkActivity (.str "2023-11-14T21:13:20Z")
  (.str "spaces/X") c7cSpX c7cMsgX

def c7cActY : Json := SearchTools.mkActivity (.str "2023-11-14T21:13:20Z")
  (.str "spaces/Y") c7cSpY c7cMsgY

/-- C7 counterexample: with two kept messages sharing one timestamp,
the output order is NOT independent of the space-processing order —
the stable sort keeps them in processing order, so listing the spaces
in the two possible orders yields two different `activities` lists
(and different envelopes). -/
theorem C7_counterexample_equal_timestamps :
    (SearchTools.get_recent_activity ⟨Except.ok (), Except.ok svc7c1⟩ 1700000000000000
        [("hours", Json.num 24), ("limit", Json.num 50)]).1
      = Json.obj [("success", Json.bool true),
          ("activities", Json.arr [c7cActX, c7cActY]),
          ("count", Json.num 2), ("hours", Json.num 24),
          ("activity_types", Json.arr [Json.str "MESSAGE"]), ("space", Json.null)]
    ∧ (SearchTools.get_recent_activity ⟨Except.ok (), Except.ok svc7c2⟩ 1700000000000000
        [("hours", Json.num 24), ("limit", Json.num 50)]).1
      = Json.obj [("success", Json.bool true),
          ("activities", Json.arr [c7cActY, c7cActX]),
          ("count", Json.num 2), ("hours", Json.num 24),
          ("activity_types", Json.arr [Json.str "MESSAGE"]), ("space", Json.null)]
    ∧ Json.beq (Json.arr [c7cActX, c7cActY]) (Json.arr [c7cActY, c7cActX]) = false := by
  refine ⟨rfl, rfl, rfl⟩

/-- Witness environment: one message an hour old (kept), one thirty
hours old (dropped), `hours = 24`; the two services list the two
spaces in opposite orders. -/
def c7wSpX : Json := .obj [("name", .str "spaces/X")]

def c7wSpY : Json := .obj [("name", .str "spaces/Y")]

def c7wMsgX : Json := .obj [("name", .str "m1"), ("createTime", .str "2023-11-14T21:13:20Z")]

def c7wMsgY : Json := .obj [("name", .str "m2"), ("createTime", .str "2023-11-13T16:13:20Z")]

def c7wMsgsOf (s : Json) : List Json :=
  if Json.beq (jLookupTotal s "name") (.str "spaces/X") then [c7wMsgX] else [c7wMsgY]

def c7wCtOf (m : Json) : String :=
  if Json.beq (jLookupTotal m "name") (.str "m1") then "2023-11-14T21:13:20Z"
  else "2023-11-13T16:13:20Z"

def c7wEpochOf (m : Json) : Int :=
  if Json.beq (jLookupTotal m "name") (.str "m1") then 1699996400000000
  else 1699892000000000

def c7wBase : Service where
  messagesCreate := fun _ _ => .ok (.obj [])
  messagesList := fun parent _ _ _ =>
    if Json.beq parent (.str "spaces/X") then .ok (.obj [("messages", .arr [c7wMsgX])])
    else .ok (.obj [("messages", .arr [c7wMsgY])])
  messagesGet := fun _ => .ok (.obj [])
  messagesPatch := fun _ _ _ => .ok (.obj [])
  messagesDelete := fun _ => .ok (.obj [])
  spacesList := fun _ _ => .ok (.obj [("spaces", .arr [c7wSpX, c7wSpY])])
  spacesGet := fun _ => .ok (.obj [])
  spacesCreate := fun _ => .ok (.obj [])
  spacesPatch := fun _ _ _ => .ok (.obj [])
  spacesDelete := fun _ => .ok (.obj [])
  membersList := fun _ _ _ _ => .ok (.obj [("memberships", .arr [])])
  membersGet := fun _ => .ok (.obj [])
  membersCreate := fun _ _ => .ok (.obj [])
  membersPatch := fun _ _ _ => .ok (.obj [])
  membersDelete := fun _ => .ok (.obj [])
  httpPost := fun _ _ => .ok (200, .obj [], "")

def svc7w1 : Service := c7wBase

def svc7w2 : Service :=
  { c7wBase with spacesList := fun _ _ => .ok (.obj [("spaces", .arr [c7wSpY, c7wSpX])]) }

theorem C7_witness :
    (SearchTools.get_recent_activity ⟨Except.ok (), Except.ok svc7w1⟩ 1700000000000000
        [("hours", Json.num 24), ("limit", Json.num 50)]).1
      = Json.obj [("success", Json.bool true),
          ("activities", Json.arr [SearchTools.mkActivity (Json.str "2023-11-14T21:13:20Z")
            (Json.str "spaces/X") c7wSpX c7wMsgX]),
          ("count", Json.num 1), ("hours", Json.num 24),
          ("activity_types", Json.arr [Json.str "MESSAGE"]), ("space", Json.null)]
    ∧ (SearchTools.get_recent_activity ⟨Except.ok (), Except.ok svc7w2⟩ 1700000000000000
        [("hours", Json.num 24), ("limit", Json.num 50)]).1
      = Json.obj [("success", Json.bool true),
          ("activities", Json.arr [SearchTools.mkActivity (Json.str "2023-11-14T21:13:20Z")
            (Json.str "spaces/X") c7wSpX c7wMsgX]),
          ("count", Json.num 1), ("hours", Json.num 24),
          ("activity_types", Json.arr [Json.str "MESSAGE"]), ("space", Json.null)] := by
  obtain ⟨h1, h2, h3⟩ := C7_recent_activity_sorted_truncated svc7w1 svc7w2
    (Except.ok ()) (Except.ok ()) 1700000000000000 24 50
    [("hours", Json.num 24), ("limit", Json.num 50)]
    [c7wSpX, c7wSpY] [c7wSpY, c7wSpX]
    (fun s => jLookupTotal s "name") c7wMsgsOf c7wCtOf c7wEpochOf
    rfl rfl rfl (by decide) rfl rfl rfl
    (List.Perm.swap c7wSpY c7wSpX [])
    (by
      intro s hs
      cases hs with
      | head => rfl
      | tail _ hs2 =>
        cases hs2 with
        | head => rfl
        | tail _ hs3 => cases hs3)
    (by
      intro s hs
      cases hs with
      | head => rfl
      | tail _ hs2 =>
        cases hs2 with
        | head => rfl
        | tail _ hs3 => cases hs3)
    (by
      intro s hs
      cases hs with
      | head => rfl
      | tail _ hs2 =>
        cases hs2 with
        | head => rfl
        | tail _ hs3 => cases hs3)
    (by
      intro s hs
      cases hs with
      | head =>
        intro m hm
        cases hm with
        | head => exact ⟨rfl, rfl, rfl⟩
        | tail _ hm2 => cases hm2
      | tail _ hs2 =>
        cases hs2 with
        | head =>
          intro m hm
          cases hm with
          | head => exact ⟨rfl, rfl, rfl⟩
          | tail _ hm2 => cases hm2
        | tail _ hs3 => cases hs3)
    (by decide)
  exact ⟨h1.trans (by rfl), h2.trans (by rfl)⟩
